import Mathlib

/-!
# Verification of the TimberFrameCompiler framing engine

Shallow embedding of `src/core/TimberEngine.ts` (class `TimberEngine`).
JavaScript numbers are modelled as exact rationals (`ℚ`); comparisons of
the form `Math.sqrt e < c` with both sides nonnegative are embedded as the
equivalent squared comparison `e < c*c` so that every definition stays in
`ℚ` and is executable.  The two genuinely irrational inputs — the length
`Math.sqrt(dx²+dz²)` of a wall used to build unit direction vectors, and
`Math.tan(pitchAngle·π/180)` in the roof framer — are passed in as
explicit parameters (`len`, `tanPitch`); theorems characterise them by
hypotheses where the value matters, and all concrete scenarios use walls
whose squared length is a perfect square (so the parameter is exact).
-/

namespace Timber

/-!
## Executable rational arithmetic

`Rat.add`, `Rat.sub`, `Rat.mul`, `Rat.inv` and `Rat.ofScientific` are
`@[irreducible]` in Batteries, which blocks `decide`-style evaluation of
concrete scenarios.  The embedding therefore uses the `q*` wrappers below,
each built from `mkRat` (which does reduce) and proved equal to the
corresponding standard operation, together with `mkRat`-built numeric
literals.  Every theorem about the embedding may be read through the
`q*_eq` lemmas as a statement about ordinary rational arithmetic.
-/

/-- Executable addition on `ℚ`: equals `a + b` (see `qadd_eq`). -/
def qadd (a b : ℚ) : ℚ := mkRat (a.num * b.den + b.num * a.den) (a.den * b.den)

/-- Executable negation-based subtraction on `ℚ`: equals `a - b` (see `qsub_eq`). -/
def qsub (a b : ℚ) : ℚ := qadd a (-b)

/-- Executable multiplication on `ℚ`: equals `a * b` (see `qmul_eq`). -/
def qmul (a b : ℚ) : ℚ := mkRat (a.num * b.num) (a.den * b.den)

/-- Executable division on `ℚ`: equals `a / b` (see `qdiv_eq`), with the
JS convention `x / 0 = 0` matching Lean's. -/
def qdiv (a b : ℚ) : ℚ := mkRat (a.num * b.num.sign * b.den) (a.den * b.num.natAbs)

/-- Executable absolute value on `ℚ`: equals `|a|` (see `qabs_eq`). -/
def qabs (a : ℚ) : ℚ := if a < 0 then -a else a

/-- Tolerance for floating-point comparisons (meters); `EPS = 0.005` in the source. -/
def EPS : ℚ := mkRat 5 1000

/-- Source `Point2D {x, z}` — floor-plane coordinate. -/
structure Point2D where
  x : ℚ
  z : ℚ
  deriving DecidableEq, Repr

/-- Source `Point3D {x, y, z}` — 3D coordinate, `y` vertical. -/
structure Point3D where
  x : ℚ
  y : ℚ
  z : ℚ
  deriving DecidableEq, Repr

/-- Source `wallType: 'exterior' | 'interior'`. -/
inductive WallType where
  | exterior
  | interior
  deriving DecidableEq, Repr

/-- Source `Wall {id, start, end, wallType}` (TS field `end` is `end_` here). -/
structure Wall where
  id : String
  start : Point2D
  end_ : Point2D
  wallType : WallType
  deriving DecidableEq, Repr

/-- Source `type: 'window' | 'door'`. -/
inductive OpeningType where
  | window
  | door
  deriving DecidableEq, Repr

/-- Source `Opening {id, wallId, type, position, width, height, sillHeight}`. -/
structure Opening where
  id : String
  wallId : String
  type : OpeningType
  position : ℚ
  width : ℚ
  height : ℚ
  sillHeight : ℚ
  deriving DecidableEq, Repr

/-- The `TimberMember.type` union of the source data model. -/
inductive MemberType where
  | stud
  | king_stud
  | cripple_stud
  | corner_stud
  | partition_backer
  | bottom_plate
  | top_plate
  | double_top_plate
  | nogging
  | trimmer
  | header
  | sill_plate
  | rafter
  | ridge_beam
  | collar_tie
  | ceiling_joist
  | fascia
  deriving DecidableEq, Repr

/-- Source `TimberMember {start, end, width, depth, type, wallId}`. -/
structure TimberMember where
  start : Point3D
  end_ : Point3D
  width : ℚ
  depth : ℚ
  type : MemberType
  wallId : String
  deriving DecidableEq, Repr

/-- Source `RoofConfig.type`. -/
inductive RoofType where
  | flat
  | gable
  deriving DecidableEq, Repr

/-- Source `RoofConfig.ridgeAxis`. -/
inductive RidgeAxis where
  | x
  | z
  deriving DecidableEq, Repr

/-- Source `RoofConfig {type, pitchAngle, overhang, ridgeAxis, rafterWidth, rafterDepth}`. -/
structure RoofConfig where
  type : RoofType
  pitchAngle : ℚ
  overhang : ℚ
  ridgeAxis : RidgeAxis
  rafterWidth : ℚ
  rafterDepth : ℚ
  deriving DecidableEq, Repr

/-- Source `FrameParams`. -/
structure FrameParams where
  studSpacing : ℚ
  wallHeight : ℚ
  studWidth : ℚ
  studDepth : ℚ
  exteriorStudDepth : ℚ
  gridSnap : ℚ
  noggings : Bool
  roof : Option RoofConfig
  deriving DecidableEq, Repr

/-- Internal `WallDir` record of the engine. -/
structure WallDir where
  dx : ℚ
  dz : ℚ
  length : ℚ
  dirX : ℚ
  dirZ : ℚ
  normX : ℚ
  normZ : ℚ
  deriving DecidableEq, Repr

/-- Internal `Junction` record: `type` is `'corner' | 'tee'`. -/
inductive JunctionType where
  | corner
  | tee
  deriving DecidableEq, Repr

/-- Internal `Junction {point, wallIds, type}`. -/
structure Junction where
  point : Point2D
  wallIds : List String
  type : JunctionType
  deriving DecidableEq, Repr

/-- Internal `OpeningZone {left, right, headerY, sillY, opening}`. -/
structure OpeningZone where
  left : ℚ
  right : ℚ
  headerY : ℚ
  sillY : ℚ
  opening : Opening
  deriving DecidableEq, Repr

/-!
## `computeWallDir`

The source computes `length = Math.sqrt(dx*dx + dz*dz)`; the square root
is supplied as the parameter `len` (theorems characterise it as the
nonnegative root of `dx²+dz²` where the exact value matters).
-/

/-- Source `computeWallDir(wall)` with the square-root value passed in as `len`. -/
def computeWallDir (wall : Wall) (len : ℚ) : WallDir :=
  let dx := qsub wall.end_.x wall.start.x
  let dz := qsub wall.end_.z wall.start.z
  let dirX := if len > EPS then qdiv dx len else 0
  let dirZ := if len > EPS then qdiv dz len else 0
  { dx := dx, dz := dz, length := len
    dirX := dirX, dirZ := dirZ
    normX := -dirZ, normZ := dirX }

/-!
## `computeStudPositionsOC`

The source's `while (pos < wallLength - EPS) { positions.push(pos); pos += studSpacing }`
terminates only for positive spacing; the Lean loop bakes `0 < studSpacing`
into the loop guard (all claims assume a positive spacing).
-/

/-- The `while` loop of `computeStudPositionsOC`, with an explicit fuel so the
recursion is structural (hence kernel-evaluable).  The fuel passed by
`studLoop` below is an upper bound on the iteration count, so the fueled
loop computes exactly the JS `while` loop for positive spacing. -/
def studLoopAux (wallLength studSpacing : ℚ) : Nat → ℚ → List ℚ
  | 0, _ => []
  | Nat.succ fuel, pos =>
    if pos < qsub wallLength EPS then
      pos :: studLoopAux wallLength studSpacing fuel (qadd pos studSpacing)
    else
      []

/-- Source `while (pos < wallLength - EPS) { positions.push(pos); pos += studSpacing }`.
The JS loop terminates only for positive spacing; that condition guards the
Lean loop (all claims assume a positive spacing). -/
def studLoop (wallLength studSpacing pos : ℚ) : List ℚ :=
  if 0 < studSpacing then
    studLoopAux wallLength studSpacing
      (⌈qdiv (qsub (qsub wallLength EPS) pos) studSpacing⌉).toNat pos
  else
    []

/-- Source `computeStudPositionsOC(wallLength, studSpacing)`. -/
def computeStudPositionsOC (wallLength studSpacing : ℚ) : List ℚ :=
  let positions : List ℚ := 0 :: studLoop wallLength studSpacing studSpacing
  let last := positions.getLastD 0
  if qsub wallLength last > qmul studSpacing (mkRat 1 4) then
    positions ++ [wallLength]
  else if positions.length > 1 then
    positions.dropLast ++ [wallLength]
  else
    positions

/-!
## Junction detection

`detectJunctions` keys a JS `Map` by the string `"rx,rz"` built from the
1 mm-quantised coordinates; the pair `(rx, rz)` itself is an equivalent
key.  JS `Map` preserves key insertion order and `Map.set` updates in
place, which the association list below reproduces.  The two comparisons
against `Math.sqrt` values inside the segment predicates are embedded as
their (exactly equivalent) squared forms, noted inline.
-/

/-- JS `Math.round` (half-up, also for negative halves): `⌊q + 1/2⌋`. -/
def jsRound (q : ℚ) : ℤ := ⌊qadd q (mkRat 1 2)⌋

/-- Source `key(p)` of `detectJunctions`: `(Math.round(p.x*1000), Math.round(p.z*1000))`. -/
def quantKey (p : Point2D) : ℤ × ℤ := (jsRound (qmul p.x 1000), jsRound (qmul p.z 1000))

/-- Source `isPointOnSegment(pt, a, b)`.  With `ab2 = abLen²` and `dot = t·ab2`:
`abLen < EPS ⟺ ab2 < EPS²`; `t < EPS/abLen ⟺ dot < EPS·abLen ⟺ dot < 0 ∨ dot² < EPS²·ab2`;
`t > 1 − EPS/abLen ⟺ ab2 − dot < EPS·abLen`; `dist < EPS·2 ⟺ dist² < (EPS·2)²`. -/
def isPointOnSegment (pt a b : Point2D) : Bool :=
  let abx := qsub b.x a.x
  let abz := qsub b.z a.z
  let ab2 := qadd (qmul abx abx) (qmul abz abz)
  if ab2 < qmul EPS EPS then false
  else
    let apx := qsub pt.x a.x
    let apz := qsub pt.z a.z
    let dot := qadd (qmul apx abx) (qmul apz abz)
    if dot < 0 ∨ qmul dot dot < qmul (qmul EPS EPS) ab2 then false
    else if qsub ab2 dot < 0 ∨
        qmul (qsub ab2 dot) (qsub ab2 dot) < qmul (qmul EPS EPS) ab2 then false
    else
      let t := qdiv dot ab2
      let projX := qadd a.x (qmul t abx)
      let projZ := qadd a.z (qmul t abz)
      let d2 := qadd (qmul (qsub pt.x projX) (qsub pt.x projX))
                     (qmul (qsub pt.z projZ) (qsub pt.z projZ))
      decide (d2 < qmul (qmul EPS 2) (qmul EPS 2))

/-- Source `isPointOnSegmentInterior(pt, a, b)`: as above, but the parameter test is
the exact rational comparison `t < 0.01 ∨ t > 0.99`. -/
def isPointOnSegmentInterior (pt a b : Point2D) : Bool :=
  let abx := qsub b.x a.x
  let abz := qsub b.z a.z
  let ab2 := qadd (qmul abx abx) (qmul abz abz)
  if ab2 < qmul EPS EPS then false
  else
    let apx := qsub pt.x a.x
    let apz := qsub pt.z a.z
    let t := qdiv (qadd (qmul apx abx) (qmul apz abz)) ab2
    if t < mkRat 1 100 ∨ t > mkRat 99 100 then false
    else
      let projX := qadd a.x (qmul t abx)
      let projZ := qadd a.z (qmul t abz)
      let d2 := qadd (qmul (qsub pt.x projX) (qsub pt.x projX))
                     (qmul (qsub pt.z projZ) (qsub pt.z projZ))
      decide (d2 < qmul (qmul EPS 2) (qmul EPS 2))

/-- One entry of the `pointMap` of `detectJunctions`. -/
structure PMEntry where
  point : Point2D
  wallIds : List String
  deriving DecidableEq, Repr

/-- The `pointMap` as an insertion-ordered association list. -/
abbrev PointMap := List ((ℤ × ℤ) × PMEntry)

/-- Source `if (!entry.wallIds.includes(id)) entry.wallIds.push(id)`. -/
def pmAddId (e : PMEntry) (wid : String) : PMEntry :=
  if e.wallIds.contains wid then e else { e with wallIds := e.wallIds ++ [wid] }

/-- Upsert: create the entry for key `k` (with representative point `p`) if
absent — new keys go to the end, as in a JS `Map` — then add each id of
`ids` that is not yet present. -/
def pmUpdate (m : PointMap) (k : ℤ × ℤ) (p : Point2D) (ids : List String) : PointMap :=
  match m with
  | [] => [(k, ids.foldl pmAddId { point := p, wallIds := [] })]
  | (k', e) :: rest =>
    if k' = k then (k', ids.foldl pmAddId e) :: rest
    else (k', e) :: pmUpdate rest k p ids

/-- The body of the outer `for (const wall of walls)` loop of `detectJunctions`:
register both endpoints, then the T-junction scan against every other wall. -/
def detectStep (walls : List Wall) (m : PointMap) (wall : Wall) : PointMap :=
  let m1 := pmUpdate m (quantKey wall.start) wall.start [wall.id]
  let m2 := pmUpdate m1 (quantKey wall.end_) wall.end_ [wall.id]
  walls.foldl (fun acc other =>
    if other.id = wall.id then acc
    else
      [wall.start, wall.end_].foldl (fun acc2 pt =>
        if isPointOnSegment pt other.start other.end_ then
          pmUpdate acc2 (quantKey pt) pt [wall.id, other.id]
        else acc2) acc) m2

/-- The fully built `pointMap`. -/
def buildPointMap (walls : List Wall) : PointMap :=
  walls.foldl (detectStep walls) []

/-- Source `entry.wallIds.some(wid => isPointOnSegmentInterior(entry.point, w.start, w.end))`
with `w = walls.find(ww => ww.id === wid)!` (never absent in practice; an
absent id is treated as not-interior). -/
def entryIsTee (walls : List Wall) (e : PMEntry) : Bool :=
  e.wallIds.any (fun wid =>
    match walls.find? (fun ww => ww.id == wid) with
    | some w => isPointOnSegmentInterior e.point w.start w.end_
    | none => false)

/-- Source `detectJunctions(walls)`. -/
def detectJunctions (walls : List Wall) : List Junction :=
  (buildPointMap walls).filterMap (fun kv =>
    if kv.2.wallIds.length ≥ 2 then
      some { point := kv.2.point, wallIds := kv.2.wallIds,
             type := if entryIsTee walls kv.2 then JunctionType.tee else JunctionType.corner }
    else none)

/-!
## Wall framing
-/

/-- Source `TimberFrame {members, sourceWalls}`. -/
structure TimberFrame where
  members : List TimberMember
  sourceWalls : List Wall
  deriving DecidableEq, Repr

/-- Source `createPlate(wall, params, position)`; `top = false` is `'bottom'`. -/
def createPlate (wall : Wall) (params : FrameParams) (top : Bool) : TimberMember :=
  let plateThick := params.studWidth
  let y := if top then qsub params.wallHeight (qmul plateThick 2) else 0
  { start := { x := wall.start.x, y := y, z := wall.start.z }
    end_ := { x := wall.end_.x, y := y, z := wall.end_.z }
    width := plateThick
    depth := params.studDepth
    type := if top then MemberType.top_plate else MemberType.bottom_plate
    wallId := wall.id }

/-- Source `projectPointOntoWall(pt, wall, dir)`; the comparison of the
perpendicular distance against `EPS*10` is embedded squared. -/
def projectPointOntoWall (pt : Point2D) (wall : Wall) (dir : WallDir) : Option ℚ :=
  let apx := qsub pt.x wall.start.x
  let apz := qsub pt.z wall.start.z
  let t := qadd (qmul apx dir.dirX) (qmul apz dir.dirZ)
  if t < -EPS ∨ t > qadd dir.length EPS then none
  else
    let projX := qadd wall.start.x (qmul dir.dirX t)
    let projZ := qadd wall.start.z (qmul dir.dirZ t)
    let d2 := qadd (qmul (qsub pt.x projX) (qsub pt.x projX))
                   (qmul (qsub pt.z projZ) (qsub pt.z projZ))
    if d2 > qmul (qmul EPS 10) (qmul EPS 10) then none
    else some t

/-- Source `projectPointOntoWallT(pt, wall, dir)` (the source declares a nullable
return type but never returns null). -/
def projectPointOntoWallT (pt : Point2D) (wall : Wall) (dir : WallDir) : ℚ :=
  qadd (qmul (qsub pt.x wall.start.x) dir.dirX) (qmul (qsub pt.z wall.start.z) dir.dirZ)

/-- The opening-zone construction of `generateWallFrame`. -/
def zonesOf (openings : List Opening) (plateThick : ℚ) : List OpeningZone :=
  openings.map (fun o =>
    { left := qsub o.position (qdiv o.width 2)
      right := qadd o.position (qdiv o.width 2)
      headerY := qadd (qadd plateThick o.sillHeight) o.height
      sillY := qadd plateThick o.sillHeight
      opening := o })

/-- The `junctionPositions` set of `generateWallFrame` (as a list; only
membership is ever queried). -/
def junctionPositionsFor (junctions : List Junction) (wall : Wall) (dir : WallDir)
    (studPositions : List ℚ) (studDepth : ℚ) : List ℚ :=
  junctions.foldl (fun acc junc =>
    match projectPointOntoWall junc.point wall dir with
    | some t => acc ++ studPositions.filter (fun sp => qabs (qsub sp t) < qadd studDepth EPS)
    | none => acc) []

/-- The body of the `for (const t of studPositions)` loop of
`generateWallFrame`: the members emitted for one on-center position. -/
def studAt (wall : Wall) (dir : WallDir) (params : FrameParams)
    (zones : List OpeningZone) (junctionPositions : List ℚ) (t : ℚ) : List TimberMember :=
  let plateThick := params.studWidth
  let baseX := qadd wall.start.x (qmul dir.dirX t)
  let baseZ := qadd wall.start.z (qmul dir.dirZ t)
  match zones.find? (fun z => decide (t > qadd z.left EPS) && decide (t < qsub z.right EPS)) with
  | some zone =>
    let headerHeight := qmul params.studWidth 2
    let crippleTop := qsub params.wallHeight (qmul plateThick 2)
    (if qadd (qadd zone.headerY headerHeight) EPS < crippleTop then
      [{ start := { x := baseX, y := qadd zone.headerY headerHeight, z := baseZ }
         end_ := { x := baseX, y := crippleTop, z := baseZ }
         width := params.studWidth, depth := params.studDepth
         type := MemberType.cripple_stud, wallId := wall.id }]
     else []) ++
    (if zone.opening.type = OpeningType.window ∧ zone.sillY > qadd plateThick EPS then
      [{ start := { x := baseX, y := plateThick, z := baseZ }
         end_ := { x := baseX, y := zone.sillY, z := baseZ }
         width := params.studWidth, depth := params.studDepth
         type := MemberType.cripple_stud, wallId := wall.id }]
     else [])
  | none =>
    if junctionPositions.contains t ∧ t > EPS ∧ t < qsub dir.length EPS then []
    else
      let studBottom := plateThick
      let studTop := qsub params.wallHeight (qmul plateThick 2)
      if qsub studTop studBottom > EPS then
        [{ start := { x := baseX, y := studBottom, z := baseZ }
           end_ := { x := baseX, y := studTop, z := baseZ }
           width := params.studWidth, depth := params.studDepth
           type := MemberType.stud, wallId := wall.id }]
      else []

/-- Source `frameOpening(members, wall, dir, params, zone, studPositions)` as the
list of members it pushes (the source's `studPositions` parameter is unused
there, kept for signature fidelity). -/
def frameOpening (wall : Wall) (dir : WallDir) (params : FrameParams)
    (zone : OpeningZone) (_studPositions : List ℚ) : List TimberMember :=
  let plateThick := params.studWidth
  let kingLeftT := zone.left
  let kingRightT := zone.right
  let klx := qadd wall.start.x (qmul dir.dirX kingLeftT)
  let klz := qadd wall.start.z (qmul dir.dirZ kingLeftT)
  let krx := qadd wall.start.x (qmul dir.dirX kingRightT)
  let krz := qadd wall.start.z (qmul dir.dirZ kingRightT)
  let studBottom := plateThick
  let studTop := qsub params.wallHeight (qmul plateThick 2)
  let jackLeftT := qadd kingLeftT params.studWidth
  let jackRightT := qsub kingRightT params.studWidth
  let jlx := qadd wall.start.x (qmul dir.dirX jackLeftT)
  let jlz := qadd wall.start.z (qmul dir.dirZ jackLeftT)
  let jrx := qadd wall.start.x (qmul dir.dirX jackRightT)
  let jrz := qadd wall.start.z (qmul dir.dirZ jackRightT)
  let headerDepth := params.studDepth
  let headerWidth := qmul params.studWidth 2
  [{ start := { x := klx, y := studBottom, z := klz }
     end_ := { x := klx, y := studTop, z := klz }
     width := params.studWidth, depth := params.studDepth
     type := MemberType.king_stud, wallId := wall.id },
   { start := { x := krx, y := studBottom, z := krz }
     end_ := { x := krx, y := studTop, z := krz }
     width := params.studWidth, depth := params.studDepth
     type := MemberType.king_stud, wallId := wall.id },
   { start := { x := jlx, y := studBottom, z := jlz }
     end_ := { x := jlx, y := zone.headerY, z := jlz }
     width := params.studWidth, depth := params.studDepth
     type := MemberType.trimmer, wallId := wall.id },
   { start := { x := jrx, y := studBottom, z := jrz }
     end_ := { x := jrx, y := zone.headerY, z := jrz }
     width := params.studWidth, depth := params.studDepth
     type := MemberType.trimmer, wallId := wall.id },
   { start := { x := klx, y := zone.headerY, z := klz }
     end_ := { x := krx, y := zone.headerY, z := krz }
     width := headerWidth, depth := headerDepth
     type := MemberType.header, wallId := wall.id }] ++
  (if zone.opening.type = OpeningType.window then
    [{ start := { x := jlx, y := zone.sillY, z := jlz }
       end_ := { x := jrx, y := zone.sillY, z := jrz }
       width := params.studWidth, depth := params.studDepth
       type := MemberType.sill_plate, wallId := wall.id }]
   else [])

/-- Ascending insertion (sorting `ℚ` values; the JS numeric-comparator sort
produces the same value list). -/
def insertAsc (x : ℚ) : List ℚ → List ℚ
  | [] => [x]
  | y :: ys => if x ≤ y then x :: y :: ys else y :: insertAsc x ys

/-- Ascending sort of the nogging position list. -/
def sortAsc (l : List ℚ) : List ℚ := l.foldr insertAsc []

/-- Source `allPositions.filter((v, i, a) => i === 0 || v - a[i-1] > EPS)`: the
previous *array* element is the reference, kept or not. -/
def filterGapAux (prev : ℚ) : List ℚ → List ℚ
  | [] => []
  | v :: rest =>
    if qsub v prev > EPS then v :: filterGapAux v rest else filterGapAux v rest

/-- The dedupe step of `addNoggingsWithOpenings`. -/
def dedupeSorted : List ℚ → List ℚ
  | [] => []
  | x :: rest => x :: filterGapAux x rest

/-- The `for (let i = 0; i < unique.length - 1; i++)` nogging loop over
adjacent pairs. -/
def noggingsFromPairs (wall : Wall) (dir : WallDir) (params : FrameParams)
    (zones : List OpeningZone) (noggingY : ℚ) : List ℚ → List TimberMember
  | [] => []
  | [_] => []
  | t1 :: t2 :: rest =>
    (if qsub t2 t1 < qadd params.studDepth EPS then []
     else if zones.any (fun z => decide (t1 ≥ qsub z.left EPS) && decide (t2 ≤ qadd z.right EPS)) then []
     else if zones.any (fun z => decide (t1 < qsub z.left EPS) && decide (t2 > qadd z.right EPS)) then []
     else
      [{ start := { x := qadd wall.start.x (qmul dir.dirX t1), y := noggingY
                    z := qadd wall.start.z (qmul dir.dirZ t1) }
         end_ := { x := qadd wall.start.x (qmul dir.dirX t2), y := noggingY
                   z := qadd wall.start.z (qmul dir.dirZ t2) }
         width := params.studWidth, depth := params.studDepth
         type := MemberType.nogging, wallId := wall.id }]) ++
    noggingsFromPairs wall dir params zones noggingY (t2 :: rest)

/-- Source `addNoggingsWithOpenings(members, wall, dir, params, studPositions, zones)`
as the list of members it pushes. -/
def addNoggingsWithOpenings (wall : Wall) (dir : WallDir) (params : FrameParams)
    (studPositions : List ℚ) (zones : List OpeningZone) : List TimberMember :=
  let plateThick := params.studWidth
  let noggingY := qdiv (qsub (qadd plateThick params.wallHeight) (qmul plateThick 2)) 2
  let allPositions := studPositions ++ zones.foldr (fun z acc =>
    [z.left, z.right, qadd z.left params.studWidth, qsub z.right params.studWidth] ++ acc) []
  let unique := dedupeSorted (sortAsc allPositions)
  noggingsFromPairs wall dir params zones noggingY unique

/-- Source `generateWallFrame(wall, dir, params, openings, junctions, allWalls, wallDirs)`
(the source's `allWalls` and `wallDirs` parameters are unused in its body and
omitted here).  The pushes happen in source order: plates, per-position
studs, per-zone opening framing, noggings. -/
def generateWallFrame (wall : Wall) (dir : WallDir) (params : FrameParams)
    (openings : List Opening) (junctions : List Junction) : List TimberMember :=
  let plateThick := params.studWidth
  if dir.length < mkRat 1 100 then [] else
  let plates := [createPlate wall params false, createPlate wall params true,
    { start := { x := wall.start.x, y := qsub params.wallHeight plateThick, z := wall.start.z }
      end_ := { x := wall.end_.x, y := qsub params.wallHeight plateThick, z := wall.end_.z }
      width := plateThick, depth := params.studDepth
      type := MemberType.double_top_plate, wallId := wall.id }]
  let zones := zonesOf openings plateThick
  let studPositions := computeStudPositionsOC dir.length params.studSpacing
  let junctionPositions := junctionPositionsFor junctions wall dir studPositions params.studDepth
  let studs := studPositions.foldr (fun t acc => studAt wall dir params zones junctionPositions t ++ acc) []
  let opens := zones.foldr (fun z acc => frameOpening wall dir params z studPositions ++ acc) []
  let noggs := if params.noggings then addNoggingsWithOpenings wall dir params studPositions zones else []
  plates ++ studs ++ opens ++ noggs

/-!
## Junction framing
-/

/-- Source `Map.set` semantics for the `wallDirs` map: in-place update of an
existing key, append of a new one. -/
def wdSet (m : List (String × WallDir)) (k : String) (v : WallDir) :
    List (String × WallDir) :=
  match m with
  | [] => [(k, v)]
  | (k', v') :: rest => if k' = k then (k, v) :: rest else (k', v') :: wdSet rest k v

/-- Source `Map.get` for the `wallDirs` map. -/
def wdGet (m : List (String × WallDir)) (k : String) : Option WallDir :=
  (m.find? (fun kv => kv.1 == k)).map (fun kv => kv.2)

/-- Effective stud depth of a wall in junction framing:
`w.wallType === 'exterior' ? params.exteriorStudDepth : params.studDepth`. -/
def effectiveDepth (params : FrameParams) (w : Wall) : ℚ :=
  if w.wallType = WallType.exterior then params.exteriorStudDepth else params.studDepth

/-- The corner-stud member pushed for wall `w` at a corner junction:
offset from the junction point along the wall normal by its effective
depth, spanning cavity floor to top-plate underside. -/
def cornerStudAt (point : Point2D) (w : Wall) (d : WallDir) (params : FrameParams) :
    TimberMember :=
  let depth := effectiveDepth params w
  let bx := qadd point.x (qmul d.normX depth)
  let bz := qadd point.z (qmul d.normZ depth)
  { start := { x := bx, y := params.studWidth, z := bz }
    end_ := { x := bx, y := qsub params.wallHeight (qmul params.studWidth 2), z := bz }
    width := params.studWidth, depth := depth
    type := MemberType.corner_stud, wallId := w.id }

/-- The partition-backer member pushed at parameter `bt` along through
wall `tw` at a tee junction. -/
def teeBackerAt (tw : Wall) (td : WallDir) (twId : String) (params : FrameParams)
    (bt : ℚ) : TimberMember :=
  let bx := qadd tw.start.x (qmul td.dirX bt)
  let bz := qadd tw.start.z (qmul td.dirZ bt)
  { start := { x := bx, y := params.studWidth, z := bz }
    end_ := { x := bx, y := qsub params.wallHeight (qmul params.studWidth 2), z := bz }
    width := params.studWidth, depth := effectiveDepth params tw
    type := MemberType.partition_backer, wallId := twId }

/-- The `throughWalls` id list of the tee branch: ids whose wall passes
through the junction point. -/
def throughIdsOf (junc : Junction) (walls : List Wall) : List String :=
  junc.wallIds.filter (fun wid =>
    match walls.find? (fun ww => ww.id == wid) with
    | some w => isPointOnSegmentInterior junc.point w.start w.end_
    | none => false)

/-- The `buttingWalls` id list of the tee branch. -/
def buttingIdsOf (junc : Junction) (walls : List Wall) : List String :=
  junc.wallIds.filter (fun wid => !((throughIdsOf junc walls).contains wid))

/-- The members emitted for one junction by `generateJunctionFraming`
(corner branch and tee branch; the source's `!` lookups never miss in
practice — a missing id or direction contributes nothing here). -/
def junctionMembersFor (junc : Junction) (walls : List Wall)
    (wallDirs : List (String × WallDir)) (params : FrameParams) : List TimberMember :=
  let plateThick := params.studWidth
  let studBottom := plateThick
  let studTop := qsub params.wallHeight (qmul plateThick 2)
  if junc.type = JunctionType.corner then
    (junc.wallIds.filterMap (fun wid => walls.find? (fun w => w.id == wid))).foldr
      (fun w acc =>
        (match wdGet wallDirs w.id with
         | none => []
         | some d =>
           if studTop > qadd studBottom EPS then [cornerStudAt junc.point w d params]
           else []) ++ acc) []
  else
    (throughIdsOf junc walls).foldr (fun twId acc =>
      (match walls.find? (fun w => w.id == twId), wdGet wallDirs twId with
       | some tw, some td =>
         (buttingIdsOf junc walls).foldr (fun _bwId acc2 =>
           (let t := projectPointOntoWallT junc.point tw td
            let offset := qmul (effectiveDepth params tw) (mkRat 3 4)
            ([-1, 1] : List ℚ).foldr (fun side acc3 =>
              (let bt := qadd t (qmul side offset)
               if bt < EPS ∨ bt > qsub td.length EPS then []
               else if studTop > qadd studBottom EPS then [teeBackerAt tw td twId params bt]
               else []) ++ acc3) []) ++ acc2) []
       | _, _ => []) ++ acc) []

/-- Source `generateJunctionFraming(junctions, walls, wallDirs, params)`. -/
def generateJunctionFraming (junctions : List Junction) (walls : List Wall)
    (wallDirs : List (String × WallDir)) (params : FrameParams) : List TimberMember :=
  junctions.foldr (fun junc acc => junctionMembersFor junc walls wallDirs params ++ acc) []

/-!
## Roof framing

`Math.tan((pitchAngle * Math.PI) / 180)` is supplied as the parameter
`tanPitch`; every other roof quantity is rational in it.
-/

/-- Executable `min` on `ℚ` (the `LinearOrder` field is definitionally this). -/
def qmin (a b : ℚ) : ℚ := if a ≤ b then a else b

/-- Executable `max` on `ℚ`. -/
def qmax (a b : ℚ) : ℚ := if a ≤ b then b else a

/-- Source `Math.max(1, Math.round(span / studSpacing))` of the joist/rafter count. -/
def spacingCount (span studSpacing : ℚ) : ℤ :=
  let r := jsRound (qdiv span studSpacing)
  if r < 1 then 1 else r

/-- One `i`-iteration of the gable loop for `ridgeAxis === 'x'`:
south rafter, north rafter, ceiling joist, and the conditional collar tie. -/
def gableBayX (params : FrameParams) (roof : RoofConfig) (tanPitch minX minZ maxZ rafterStep : ℚ)
    (i : Nat) : List TimberMember :=
  let halfSpan := qdiv (qsub maxZ minZ) 2
  let ridgeHeight := qadd params.wallHeight (qmul tanPitch halfSpan)
  let ridgeMidZ := qdiv (qadd minZ maxZ) 2
  let x := qadd minX (qmul (i : ℚ) rafterStep)
  [{ start := { x := x, y := params.wallHeight, z := qsub minZ roof.overhang }
     end_ := { x := x, y := ridgeHeight, z := ridgeMidZ }
     width := roof.rafterWidth, depth := roof.rafterDepth
     type := MemberType.rafter, wallId := "" },
   { start := { x := x, y := ridgeHeight, z := ridgeMidZ }
     end_ := { x := x, y := params.wallHeight, z := qadd maxZ roof.overhang }
     width := roof.rafterWidth, depth := roof.rafterDepth
     type := MemberType.rafter, wallId := "" },
   { start := { x := x, y := params.wallHeight, z := minZ }
     end_ := { x := x, y := params.wallHeight, z := maxZ }
     width := roof.rafterWidth, depth := roof.rafterDepth
     type := MemberType.ceiling_joist, wallId := "" }] ++
  (if halfSpan > 1 then
    [{ start := { x := x, y := qadd params.wallHeight (qmul (qmul tanPitch halfSpan) (mkRat 3 5))
                  z := qsub ridgeMidZ (qmul halfSpan (qsub 1 (mkRat 3 5))) }
       end_ := { x := x, y := qadd params.wallHeight (qmul (qmul tanPitch halfSpan) (mkRat 3 5))
                 z := qadd ridgeMidZ (qmul halfSpan (qsub 1 (mkRat 3 5))) }
       width := params.studWidth, depth := params.studDepth
       type := MemberType.collar_tie, wallId := "" }]
   else [])

/-- One `i`-iteration of the gable loop for `ridgeAxis === 'z'`:
west rafter, east rafter, ceiling joist, and the conditional collar tie. -/
def gableBayZ (params : FrameParams) (roof : RoofConfig) (tanPitch minX maxX minZ rafterStep : ℚ)
    (i : Nat) : List TimberMember :=
  let halfSpan := qdiv (qsub maxX minX) 2
  let ridgeHeight := qadd params.wallHeight (qmul tanPitch halfSpan)
  let ridgeMidX := qdiv (qadd minX maxX) 2
  let z := qadd minZ (qmul (i : ℚ) rafterStep)
  [{ start := { x := qsub minX roof.overhang, y := params.wallHeight, z := z }
     end_ := { x := ridgeMidX, y := ridgeHeight, z := z }
     width := roof.rafterWidth, depth := roof.rafterDepth
     type := MemberType.rafter, wallId := "" },
   { start := { x := ridgeMidX, y := ridgeHeight, z := z }
     end_ := { x := qadd maxX roof.overhang, y := params.wallHeight, z := z }
     width := roof.rafterWidth, depth := roof.rafterDepth
     type := MemberType.rafter, wallId := "" },
   { start := { x := minX, y := params.wallHeight, z := z }
     end_ := { x := maxX, y := params.wallHeight, z := z }
     width := roof.rafterWidth, depth := roof.rafterDepth
     type := MemberType.ceiling_joist, wallId := "" }] ++
  (if halfSpan > 1 then
    [{ start := { x := qsub ridgeMidX (qmul halfSpan (qsub 1 (mkRat 3 5)))
                  y := qadd params.wallHeight (qmul (qmul tanPitch halfSpan) (mkRat 3 5)), z := z }
       end_ := { x := qadd ridgeMidX (qmul halfSpan (qsub 1 (mkRat 3 5)))
                 y := qadd params.wallHeight (qmul (qmul tanPitch halfSpan) (mkRat 3 5)), z := z }
       width := params.studWidth, depth := params.studDepth
       type := MemberType.collar_tie, wallId := "" }]
   else [])

/-- Endpoint x-coordinates of a wall list (for the roof bounding box). -/
def wallXs (l : List Wall) : List ℚ := l.foldr (fun w acc => w.start.x :: w.end_.x :: acc) []

/-- Endpoint z-coordinates of a wall list. -/
def wallZs (l : List Wall) : List ℚ := l.foldr (fun w acc => w.start.z :: w.end_.z :: acc) []

/-- The roof bounding box `minX` (the source folds `Math.min` from
`Infinity` over all endpoints; for a nonempty list this is the same fold
seeded with the first endpoint). -/
def boundsMinX (l : List Wall) : ℚ :=
  match l with
  | [] => 0
  | w0 :: _ => (wallXs l).foldl qmin w0.start.x

/-- The roof bounding box `maxX`. -/
def boundsMaxX (l : List Wall) : ℚ :=
  match l with
  | [] => 0
  | w0 :: _ => (wallXs l).foldl qmax w0.start.x

/-- The roof bounding box `minZ`. -/
def boundsMinZ (l : List Wall) : ℚ :=
  match l with
  | [] => 0
  | w0 :: _ => (wallZs l).foldl qmin w0.start.z

/-- The roof bounding box `maxZ`. -/
def boundsMaxZ (l : List Wall) : ℚ :=
  match l with
  | [] => 0
  | w0 :: _ => (wallZs l).foldl qmax w0.start.z

/-- The `walls.filter(w => w.wallType === 'exterior')` selection of `generateRoof`. -/
def extWallsOf (walls : List Wall) : List Wall :=
  walls.filter (fun w => w.wallType == WallType.exterior)

/-- The gable branch of `generateRoof` for `ridgeAxis === 'x'`:
ridge beam, rafter/joist/collar bays, and the two eave fascias, over the
exterior bounding box. -/
def gableRoofX (params : FrameParams) (roof : RoofConfig)
    (tanPitch minX maxX minZ maxZ : ℚ) : List TimberMember :=
  let overhang := roof.overhang
  let ridgeWidth := qmul roof.rafterWidth (mkRat 3 2)
  let ridgeDepth := qmul roof.rafterDepth (mkRat 6 5)
  let halfSpan := qdiv (qsub maxZ minZ) 2
  let ridgeHeight := qadd params.wallHeight (qmul tanPitch halfSpan)
  let ridgeMidZ := qdiv (qadd minZ maxZ) 2
  let spanX := qsub maxX minX
  let rafterCount := spacingCount spanX params.studSpacing
  let rafterStep := qdiv spanX (rafterCount : ℚ)
  { start := { x := qsub minX overhang, y := ridgeHeight, z := ridgeMidZ }
    end_ := { x := qadd maxX overhang, y := ridgeHeight, z := ridgeMidZ }
    width := ridgeWidth, depth := ridgeDepth
    type := MemberType.ridge_beam, wallId := "" } ::
  ((List.range (rafterCount.toNat + 1)).foldr
    (fun i acc => gableBayX params roof tanPitch minX minZ maxZ rafterStep i ++ acc) []) ++
  [{ start := { x := qsub minX overhang, y := params.wallHeight, z := qsub minZ overhang }
     end_ := { x := qadd maxX overhang, y := params.wallHeight, z := qsub minZ overhang }
     width := params.studWidth, depth := roof.rafterDepth
     type := MemberType.fascia, wallId := "" },
   { start := { x := qsub minX overhang, y := params.wallHeight, z := qadd maxZ overhang }
     end_ := { x := qadd maxX overhang, y := params.wallHeight, z := qadd maxZ overhang }
     width := params.studWidth, depth := roof.rafterDepth
     type := MemberType.fascia, wallId := "" }]

/-- The gable branch of `generateRoof` for `ridgeAxis === 'z'`. -/
def gableRoofZ (params : FrameParams) (roof : RoofConfig)
    (tanPitch minX maxX minZ maxZ : ℚ) : List TimberMember :=
  let overhang := roof.overhang
  let ridgeWidth := qmul roof.rafterWidth (mkRat 3 2)
  let ridgeDepth := qmul roof.rafterDepth (mkRat 6 5)
  let halfSpan := qdiv (qsub maxX minX) 2
  let ridgeHeight := qadd params.wallHeight (qmul tanPitch halfSpan)
  let ridgeMidX := qdiv (qadd minX maxX) 2
  let spanZ := qsub maxZ minZ
  let rafterCount := spacingCount spanZ params.studSpacing
  let rafterStep := qdiv spanZ (rafterCount : ℚ)
  { start := { x := ridgeMidX, y := ridgeHeight, z := qsub minZ overhang }
    end_ := { x := ridgeMidX, y := ridgeHeight, z := qadd maxZ overhang }
    width := ridgeWidth, depth := ridgeDepth
    type := MemberType.ridge_beam, wallId := "" } ::
  ((List.range (rafterCount.toNat + 1)).foldr
    (fun i acc => gableBayZ params roof tanPitch minX maxX minZ rafterStep i ++ acc) []) ++
  [{ start := { x := qsub minX overhang, y := params.wallHeight, z := qsub minZ overhang }
     end_ := { x := qsub minX overhang, y := params.wallHeight, z := qadd maxZ overhang }
     width := params.studWidth, depth := roof.rafterDepth
     type := MemberType.fascia, wallId := "" },
   { start := { x := qadd maxX overhang, y := params.wallHeight, z := qsub minZ overhang }
     end_ := { x := qadd maxX overhang, y := params.wallHeight, z := qadd maxZ overhang }
     width := params.studWidth, depth := roof.rafterDepth
     type := MemberType.fascia, wallId := "" }]

/-- Source `generateRoof(walls, params)` (flat and gable branches). -/
def generateRoof (walls : List Wall) (params : FrameParams) (tanPitch : ℚ) :
    List TimberMember :=
  match params.roof with
  | none => []
  | some roof =>
    let ext := extWallsOf walls
    match ext with
    | [] => []
    | _ :: _ =>
      let minX := boundsMinX ext
      let maxX := boundsMaxX ext
      let minZ := boundsMinZ ext
      let maxZ := boundsMaxZ ext
      let overhang := roof.overhang
      if roof.type = RoofType.flat then
        let spanX := qsub maxX minX
        let spanZ := qsub maxZ minZ
        let joistAlongZ := spanZ ≤ spanX
        let secondarySpan := if joistAlongZ then spanX else spanZ
        let joistCount := spacingCount secondarySpan params.studSpacing
        let joistStep := qdiv secondarySpan (joistCount : ℚ)
        ((List.range (joistCount.toNat + 1)).map (fun i =>
          if joistAlongZ then
            { start := { x := qadd minX (qmul (i : ℚ) joistStep), y := params.wallHeight
                         z := qsub minZ overhang }
              end_ := { x := qadd minX (qmul (i : ℚ) joistStep), y := params.wallHeight
                        z := qadd maxZ overhang }
              width := roof.rafterDepth, depth := roof.rafterWidth
              type := MemberType.ceiling_joist, wallId := "" }
          else
            { start := { x := qsub minX overhang, y := params.wallHeight
                         z := qadd minZ (qmul (i : ℚ) joistStep) }
              end_ := { x := qadd maxX overhang, y := params.wallHeight
                        z := qadd minZ (qmul (i : ℚ) joistStep) }
              width := roof.rafterDepth, depth := roof.rafterWidth
              type := MemberType.ceiling_joist, wallId := "" })) ++
        [{ start := { x := qsub minX overhang, y := params.wallHeight, z := qsub minZ overhang }
           end_ := { x := qadd maxX overhang, y := params.wallHeight, z := qsub minZ overhang }
           width := roof.rafterDepth, depth := params.studWidth
           type := MemberType.fascia, wallId := "" },
         { start := { x := qsub minX overhang, y := params.wallHeight, z := qadd maxZ overhang }
           end_ := { x := qadd maxX overhang, y := params.wallHeight, z := qadd maxZ overhang }
           width := roof.rafterDepth, depth := params.studWidth
           type := MemberType.fascia, wallId := "" },
         { start := { x := qsub minX overhang, y := params.wallHeight, z := qsub minZ overhang }
           end_ := { x := qsub minX overhang, y := params.wallHeight, z := qadd maxZ overhang }
           width := roof.rafterDepth, depth := params.studWidth
           type := MemberType.fascia, wallId := "" },
         { start := { x := qadd maxX overhang, y := params.wallHeight, z := qsub minZ overhang }
           end_ := { x := qadd maxX overhang, y := params.wallHeight, z := qadd maxZ overhang }
           width := roof.rafterDepth, depth := params.studWidth
           type := MemberType.fascia, wallId := "" }]
      else
        if roof.ridgeAxis = RidgeAxis.x then
          gableRoofX params roof tanPitch minX maxX minZ maxZ
        else
          gableRoofZ params roof tanPitch minX maxX minZ maxZ

/-!
## Orchestrator
-/

/-- Stable ascending insertion by `position` (JS `sort((a, b) => a.position - b.position)`). -/
def insertByPosition (o : Opening) : List Opening → List Opening
  | [] => [o]
  | p :: rest =>
    if o.position ≤ p.position then o :: p :: rest else p :: insertByPosition o rest

/-- Stable sort of one wall's openings by position. -/
def sortOpenings (l : List Opening) : List Opening := l.foldr insertByPosition []

/-- The per-wall parameter substitution of `generate`: exterior walls frame
with `exteriorStudDepth`. -/
def effectiveParams (params : FrameParams) (w : Wall) : FrameParams :=
  if w.wallType = WallType.exterior then
    { params with studDepth := params.exteriorStudDepth }
  else params

/-- The `wallDirs` map of `generate`, keyed by wall id; `lenOf` supplies each
wall's `Math.sqrt` length. -/
def wallDirsOf (walls : List Wall) (lenOf : Wall → ℚ) : List (String × WallDir) :=
  walls.foldl (fun m w => wdSet m w.id (computeWallDir w (lenOf w))) []

/-- Source `generate(walls, params, openings)`. -/
def generate (walls : List Wall) (params : FrameParams) (openings : List Opening)
    (lenOf : Wall → ℚ) (tanPitch : ℚ) : TimberFrame :=
  let wallDirs := wallDirsOf walls lenOf
  let junctions := detectJunctions walls
  let wallMembers := walls.foldr (fun wall acc =>
    (let wallOpenings := sortOpenings (openings.filter (fun o => o.wallId == wall.id))
     match wdGet wallDirs wall.id with
     | some dir => generateWallFrame wall dir (effectiveParams params wall) wallOpenings junctions
     | none => []) ++ acc) []
  let junctionMembers := generateJunctionFraming junctions walls wallDirs params
  let roofMembers := if params.roof.isSome then generateRoof walls params tanPitch else []
  { members := wallMembers ++ junctionMembers ++ roofMembers, sourceWalls := walls }

/-!
## Point translation (for the translation-invariance claim)
-/

/-- Translation of a plan point by a constant offset. -/
def shiftPoint (dx dz : ℚ) (p : Point2D) : Point2D :=
  { x := qadd p.x dx, z := qadd p.z dz }

/-- Translation of a wall by a constant offset. -/
def shiftWall (dx dz : ℚ) (w : Wall) : Wall :=
  { w with start := shiftPoint dx dz w.start, end_ := shiftPoint dx dz w.end_ }

/-- Translation of a junction by a constant offset. -/
def shiftJunction (dx dz : ℚ) (j : Junction) : Junction :=
  { j with point := shiftPoint dx dz j.point }

/-- Key-and-point translation of the whole point map of `detectJunctions`. -/
def shiftPM (mx mz : ℤ) (dx dz : ℚ) (m : PointMap) : PointMap :=
  m.map (fun kv => ((kv.1.1 + mx, kv.1.2 + mz),
    { point := shiftPoint dx dz kv.2.point, wallIds := kv.2.wallIds }))

/-!
## Concrete scenario inputs

Numeric values are the spec scenarios written as exact rationals:
`0.6 = 3/5`, `2.4 = 12/5`, `0.045 = 9/200`, `0.095 = 19/200`,
`0.9 = 9/10`, `1.2 = 6/5`.
-/

/-- An exterior wall between two plan points. -/
def mkExtWall (i : String) (x1 z1 x2 z2 : ℚ) : Wall :=
  { id := i, start := { x := x1, z := z1 }, end_ := { x := x2, z := z2 },
    wallType := WallType.exterior }

/-- The Scenario A/C parameter set. -/
def scParams : FrameParams :=
  { studSpacing := mkRat 3 5, wallHeight := mkRat 12 5, studWidth := mkRat 9 200
    studDepth := mkRat 19 200, exteriorStudDepth := mkRat 19 200, gridSnap := mkRat 1 10
    noggings := true, roof := none }

/-- The Scenario A/C wall `(0,0) → (4,0)`. -/
def scWall : Wall := mkExtWall "w1" 0 0 4 0

/-- Scenario A: the 4 m exterior wall framed with no openings. -/
def scFrameA : List TimberMember :=
  generateWallFrame scWall (computeWallDir scWall 4) scParams [] []

/-- The Scenario C window `{position: 2, width: 0.9, height: 1.2, sillHeight: 0.9}`. -/
def scWindow : Opening :=
  { id := "o1", wallId := "w1", type := OpeningType.window
    position := 2, width := mkRat 9 10, height := mkRat 6 5, sillHeight := mkRat 9 10 }

/-- Scenario C: the 4 m wall framed with the window. -/
def scFrameC : List TimberMember :=
  generateWallFrame scWall (computeWallDir scWall 4) scParams [scWindow] []

/-- The Scenario B rectangle `(0,0)-(10,8)` of four exterior walls. -/
def sbWalls : List Wall :=
  [mkExtWall "w1" 0 0 10 0, mkExtWall "w2" 10 0 10 8,
   mkExtWall "w3" 10 8 0 8, mkExtWall "w4" 0 8 0 0]

/-- Exact wall lengths of the Scenario B rectangle. -/
def sbLen : Wall → ℚ := fun w => if w.id == "w1" || w.id == "w3" then 10 else 8

/-- Scenario B framed (`roof = null`, no openings). -/
def sbFrame : TimberFrame := generate sbWalls scParams [] sbLen 0

/-- A tee configuration: 1 m through wall, butting wall landing 0.02 m
from the through wall's start. -/
def teeWalls : List Wall :=
  [{ id := "t1", start := { x := 0, z := 0 }, end_ := { x := 1, z := 0 },
     wallType := WallType.interior },
   { id := "t2", start := { x := mkRat 1 50, z := 0 }, end_ := { x := mkRat 1 50, z := 1 },
     wallType := WallType.interior }]

/-- The tee configuration framed. -/
def teeFrame : TimberFrame := generate teeWalls scParams [] (fun _ => 1) 0

/-- A zero-length wall sharing its point with an ordinary wall's endpoint. -/
def degWalls : List Wall :=
  [{ id := "wd", start := { x := 0, z := 0 }, end_ := { x := 0, z := 0 },
     wallType := WallType.interior },
   { id := "w2", start := { x := 0, z := 0 }, end_ := { x := 1, z := 0 },
     wallType := WallType.interior }]

/-- The degenerate configuration framed. -/
def degFrame : TimberFrame :=
  generate degWalls scParams [] (fun w => if w.id == "wd" then 0 else 1) 0

/-- Two nearly-touching collinear walls whose gap straddles a millimeter
quantisation boundary: endpoints at x = 0.0004 and x = 0.0006. -/
def c9Walls : List Wall :=
  [{ id := "a", start := { x := -1, z := 0 }, end_ := { x := mkRat 1 2500, z := 0 },
     wallType := WallType.interior },
   { id := "b", start := { x := mkRat 3 5000, z := 0 }, end_ := { x := 1, z := 0 },
     wallType := WallType.interior }]

/-- The square footprint used for the roof scenario. -/
def c6Walls : List Wall :=
  [mkExtWall "r1" 0 0 4 0, mkExtWall "r2" 4 0 4 4,
   mkExtWall "r3" 4 4 0 4, mkExtWall "r4" 0 4 0 0]

/-- A gable roof along x with 45° pitch (so `tan = 1` exactly),
overhang 0.3, rafter section 0.05 × 0.2. -/
def c6Roof : RoofConfig :=
  { type := RoofType.gable, pitchAngle := 45, overhang := mkRat 3 10, ridgeAxis := RidgeAxis.x
    rafterWidth := mkRat 1 20, rafterDepth := mkRat 1 5 }

/-- Parameters with the gable roof attached. -/
def c6Params : FrameParams := { scParams with roof := some c6Roof }

/-- The roof members of the 4 × 4 gable scenario. -/
def c6Members : List TimberMember := generateRoof c6Walls c6Params 1

/-- The same gable roof with the ridge along z. -/
def c6RoofZ : RoofConfig := { c6Roof with ridgeAxis := RidgeAxis.z }

/-- Parameters with the z-ridge gable roof attached. -/
def c6ParamsZ : FrameParams := { scParams with roof := some c6RoofZ }

/-- An opening whose `wallId` references no wall. -/
def badOpening : Opening := { scWindow with id := "bad", wallId := "zzz" }

/-- An opening wider (10 m) than its 4 m host wall. -/
def wideOpening : Opening := { scWindow with width := 10 }

end Timber


namespace Timber

/-!
## Arithmetic bridge lemmas

These identify the executable `q*` operations and `mkRat` literals with
ordinary rational arithmetic; every later theorem reads through them.
-/

theorem qadd_eq (a b : ℚ) : qadd a b = a + b := by
  have ha : ((a.den : ℚ)) ≠ 0 := Nat.cast_ne_zero.mpr a.den_nz
  have hb : ((b.den : ℚ)) ≠ 0 := Nat.cast_ne_zero.mpr b.den_nz
  rw [qadd, Rat.mkRat_eq_divInt, Rat.divInt_eq_div]
  conv_rhs => rw [← Rat.num_div_den a, ← Rat.num_div_den b]
  push_cast
  field_simp

theorem qsub_eq (a b : ℚ) : qsub a b = a - b := by
  rw [qsub, qadd_eq, sub_eq_add_neg]

theorem qmul_eq (a b : ℚ) : qmul a b = a * b := by
  have ha : ((a.den : ℚ)) ≠ 0 := Nat.cast_ne_zero.mpr a.den_nz
  have hb : ((b.den : ℚ)) ≠ 0 := Nat.cast_ne_zero.mpr b.den_nz
  rw [qmul, Rat.mkRat_eq_divInt, Rat.divInt_eq_div]
  conv_rhs => rw [← Rat.num_div_den a, ← Rat.num_div_den b]
  push_cast
  rw [div_mul_div_comm]

theorem qdiv_eq (a b : ℚ) : qdiv a b = a / b := by
  have ha : ((a.den : ℚ)) ≠ 0 := Nat.cast_ne_zero.mpr a.den_nz
  have hb : ((b.den : ℚ)) ≠ 0 := Nat.cast_ne_zero.mpr b.den_nz
  rw [qdiv, Rat.mkRat_eq_divInt, Rat.divInt_eq_div]
  rcases lt_trichotomy b.num 0 with h | h | h
  · have hs : b.num.sign = -1 := Int.sign_eq_neg_one_iff_neg.mpr h
    have habs : ((b.num.natAbs : ℤ)) = -b.num := Int.ofNat_natAbs_of_nonpos h.le
    have hbn : ((b.num : ℚ)) ≠ 0 := by
      exact_mod_cast h.ne
    rw [hs]
    conv_rhs => rw [← Rat.num_div_den a, ← Rat.num_div_den b]
    push_cast [habs]
    field_simp
  · have hb0 : b = 0 := Rat.num_eq_zero.mp h
    rw [h, hb0]
    simp
  · have hs : b.num.sign = 1 := Int.sign_eq_one_iff_pos.mpr h
    have habs : ((b.num.natAbs : ℤ)) = b.num := Int.natAbs_of_nonneg h.le
    have hbn : ((b.num : ℚ)) ≠ 0 := by
      exact_mod_cast h.ne'
    rw [hs]
    conv_rhs => rw [← Rat.num_div_den a, ← Rat.num_div_den b]
    push_cast [habs]
    field_simp

theorem qabs_eq (a : ℚ) : qabs a = |a| := by
  rw [qabs]
  by_cases h : a < 0
  · rw [if_pos h, abs_of_neg h]
  · rw [if_neg h, abs_of_nonneg (le_of_not_lt h)]

theorem qmin_eq (a b : ℚ) : qmin a b = min a b := by
  rw [qmin, min_def]

theorem qmax_eq (a b : ℚ) : qmax a b = max a b := by
  rw [qmax, max_def]

theorem mkRat_cast_eq_div (n : ℤ) (d : ℕ) : (mkRat n d : ℚ) = (n : ℚ) / (d : ℚ) := by
  rw [Rat.mkRat_eq_divInt, Rat.divInt_eq_div]
  push_cast
  rfl

theorem EPS_eq : EPS = 1/200 := by
  rw [EPS, mkRat_cast_eq_div]
  norm_num

/-!
## Generic list lemmas for the `foldr`-with-append stages
-/

theorem foldrAppend_filter {α β : Type} (f : α → List β) (p : β → Bool) (l : List α) :
    (l.foldr (fun x acc => f x ++ acc) []).filter p
      = l.foldr (fun x acc => (f x).filter p ++ acc) [] := by
  induction l with
  | nil => rfl
  | cons x xs ih => simp [List.filter_append, ih]

theorem foldrAppend_length {α β : Type} (f : α → List β) (l : List α) :
    (l.foldr (fun x acc => f x ++ acc) []).length
      = (l.map (fun x => (f x).length)).sum := by
  induction l with
  | nil => rfl
  | cons x xs ih => simp [ih]

theorem mem_foldrAppend {α β : Type} (f : α → List β) (l : List α) (y : β) :
    y ∈ l.foldr (fun x acc => f x ++ acc) [] ↔ ∃ x ∈ l, y ∈ f x := by
  induction l with
  | nil => simp
  | cons x xs ih => simp [ih]

theorem getLastD_range_map (f : ℕ → ℚ) (k : ℕ) (d : ℚ) :
    ((List.range (k+1)).map f).getLastD d = f k := by
  rw [List.range_succ, List.map_append]
  simp

theorem dropLast_range_map (f : ℕ → ℚ) (k : ℕ) :
    ((List.range (k+1)).map f).dropLast = (List.range k).map f := by
  rw [List.range_succ, List.map_append]
  simp

/-!
## The on-center stud grid (C1)
-/

theorem studLoopAux_spec (L s : ℚ) (hs : 0 < s) :
    ∀ (f : ℕ) (pos : ℚ), (L - EPS - pos) / s ≤ (f : ℚ) →
      ∃ n : ℕ,
        studLoopAux L s f pos = (List.range n).map (fun (i : ℕ) => pos + (i : ℚ) * s) ∧
        (∀ i : ℕ, i < n → pos + (i : ℚ) * s < L - EPS) ∧
        L - EPS ≤ pos + (n : ℚ) * s := by
  intro f
  induction f with
  | zero =>
    intro pos hf
    refine ⟨0, rfl, fun i hi => absurd hi (Nat.not_lt_zero i), ?_⟩
    rw [Nat.cast_zero] at hf
    have h2 : L - EPS - pos ≤ 0 * s := (div_le_iff hs).mp hf
    push_cast
    linarith
  | succ f ih =>
    intro pos hf
    by_cases h : pos < qsub L EPS
    · have h2 : pos < L - EPS := by rwa [qsub_eq] at h
      have hf2 : (L - EPS - (pos + s)) / s ≤ (f : ℚ) := by
        have hrw : (L - EPS - (pos + s)) / s = (L - EPS - pos) / s - 1 := by
          field_simp
          ring
        rw [hrw]
        push_cast at hf ⊢
        linarith
      obtain ⟨n, heq, hlt, hge⟩ := ih (qadd pos s) (by rwa [qadd_eq])
      refine ⟨n + 1, ?_, ?_, ?_⟩
      · show studLoopAux L s (f + 1) pos = _
        rw [studLoopAux, if_pos h, heq, List.range_succ_eq_map, List.map_cons,
          List.map_map]
        rw [qadd_eq]
        refine congrArg₂ _ (by push_cast; ring) ?_
        refine List.map_congr_left fun a _ => ?_
        show (pos + s) + (a : ℚ) * s = pos + ((a : ℕ).succ : ℚ) * s
        push_cast
        ring
      · intro i hi
        match i with
        | 0 =>
          push_cast
          linarith
        | Nat.succ j =>
          have hj := hlt j (by omega)
          rw [qadd_eq] at hj
          push_cast at hj ⊢
          linarith
      · have := hge
        rw [qadd_eq] at this
        push_cast at this ⊢
        linarith
    · refine ⟨0, ?_, fun i hi => absurd hi (Nat.not_lt_zero i), ?_⟩
      · show studLoopAux L s (f + 1) pos = _
        rw [studLoopAux, if_neg h]
        rfl
      · have h2 : L - EPS ≤ pos := by
          have := le_of_not_lt h
          rwa [qsub_eq] at this
        push_cast
        linarith

theorem studLoop_spec (L s pos : ℚ) (hs : 0 < s) :
    ∃ n : ℕ,
      studLoop L s pos = (List.range n).map (fun (i : ℕ) => pos + (i : ℚ) * s) ∧
      (∀ i : ℕ, i < n → pos + (i : ℚ) * s < L - EPS) ∧
      L - EPS ≤ pos + (n : ℚ) * s := by
  rw [studLoop, if_pos hs]
  apply studLoopAux_spec L s hs
  rw [qdiv_eq, qsub_eq, qsub_eq]
  calc (L - EPS - pos) / s ≤ (⌈(L - EPS - pos) / s⌉ : ℚ) := Int.le_ceil _
    _ ≤ ((⌈(L - EPS - pos) / s⌉.toNat : ℕ) : ℚ) := by
        exact_mod_cast Int.self_le_toNat _

theorem computeStudPositionsOC_spec (L s : ℚ) (hs : 0 < s) :
    ∃ k : ℕ,
      (∀ i : ℕ, 1 ≤ i → i ≤ k → (i : ℚ) * s < L - EPS) ∧
      L - EPS ≤ ((k : ℚ) + 1) * s ∧
      computeStudPositionsOC L s =
        (if s * (1/4) < L - (k : ℚ) * s then
          (List.range (k+1)).map (fun (i : ℕ) => (i : ℚ) * s) ++ [L]
        else if 1 ≤ k then
          (List.range k).map (fun (i : ℕ) => (i : ℚ) * s) ++ [L]
        else [0]) := by
  obtain ⟨n, heq, hlt, hge⟩ := studLoop_spec L s s hs
  have hbase : (0 : ℚ) :: studLoop L s s = (List.range (n+1)).map (fun (i : ℕ) => (i : ℚ) * s) := by
    rw [heq, List.range_succ_eq_map, List.map_cons, List.map_map]
    refine congrArg₂ _ (by norm_num) ?_
    refine List.map_congr_left fun a _ => ?_
    show s + (a : ℚ) * s = ((a : ℕ).succ : ℚ) * s
    push_cast
    ring
  refine ⟨n, ?_, ?_, ?_⟩
  · intro i h1 h2
    have := hlt (i - 1) (by omega)
    have hcast : ((i - 1 : ℕ) : ℚ) = (i : ℚ) - 1 := by
      push_cast [h1]
      ring
    rw [hcast] at this
    linarith
  · have := hge
    linarith
  · rw [computeStudPositionsOC, hbase, getLastD_range_map]
    have hiff : (qsub L ((n : ℚ) * s) > qmul s (mkRat 1 4)) ↔ (s * (1/4) < L - (n : ℚ) * s) := by
      rw [qsub_eq, qmul_eq, mkRat_cast_eq_div]
      norm_num
    by_cases hc : s * (1/4) < L - (n : ℚ) * s
    · rw [if_pos (hiff.mpr hc), if_pos hc]
    · rw [if_neg (fun hx => hc (hiff.mp hx)), if_neg hc]
      simp only [List.length_map, List.length_range]
      by_cases hk : 1 ≤ n
      · rw [if_pos (by omega : n + 1 > 1), if_pos hk, dropLast_range_map]
      · have hn0 : n = 0 := by omega
        subst hn0
        rw [if_neg (by omega : ¬ (0 + 1 > 1)), if_neg hk]
        simp [List.range_succ]


/-- Claim **C1** (amended): for positive stud spacing, the on-center grid starts at
0 and steps by `studSpacing`; the final position is forced to the exact wall
length — appended when the last interval exceeds 25% of the spacing and
replacing the last grid stud otherwise — EXCEPT that a wall with no interior
grid position and `wallLength ≤ 0.25·studSpacing` keeps only the single
stud at 0 (the end position is not added).  Scenario A: positions
{0, 0.6, 1.2, 1.8, 2.4, 3.0, 3.6, 4} and an 18-member frame of 8 studs,
3 plates and 7 noggings. -/
theorem c1_studPositionsOC_amended :
    (∀ L s : ℚ, 0 < s → (1/100 : ℚ) ≤ L →
      ∃ k : ℕ,
        (∀ i : ℕ, 1 ≤ i → i ≤ k → (i : ℚ) * s < L - EPS) ∧
        L - EPS ≤ ((k : ℚ) + 1) * s ∧
        computeStudPositionsOC L s =
          (if s * (1/4) < L - (k : ℚ) * s then
            (List.range (k+1)).map (fun (i : ℕ) => (i : ℚ) * s) ++ [L]
          else if 1 ≤ k then
            (List.range k).map (fun (i : ℕ) => (i : ℚ) * s) ++ [L]
          else [0])) ∧
    computeStudPositionsOC 4 (mkRat 3 5) =
      [0, mkRat 3 5, mkRat 6 5, mkRat 9 5, mkRat 12 5, 3, mkRat 18 5, 4] ∧
    scFrameA.length = 18 ∧
    (scFrameA.filter (fun m => m.type == MemberType.stud)).length = 8 ∧
    (scFrameA.filter (fun m => m.type == MemberType.bottom_plate ||
      m.type == MemberType.top_plate || m.type == MemberType.double_top_plate)).length = 3 ∧
    (scFrameA.filter (fun m => m.type == MemberType.nogging)).length = 7 := by
  refine ⟨fun L s hs _ => computeStudPositionsOC_spec L s hs, ?_, ?_, ?_, ?_, ?_⟩ <;> decide

/-- Witness for the amended C1 theorem at the Scenario A grid. -/
theorem c1_studPositionsOC_amended_witness : ∃ k : ℕ,
    (∀ i : ℕ, 1 ≤ i → i ≤ k → (i : ℚ) * (mkRat 3 5) < 4 - EPS) ∧
    (4 : ℚ) - EPS ≤ ((k : ℚ) + 1) * (mkRat 3 5) ∧
    computeStudPositionsOC 4 (mkRat 3 5) =
      (if (mkRat 3 5) * (1/4) < 4 - (k : ℚ) * (mkRat 3 5) then
        (List.range (k+1)).map (fun (i : ℕ) => (i : ℚ) * (mkRat 3 5)) ++ [(4 : ℚ)]
      else if 1 ≤ k then
        (List.range k).map (fun (i : ℕ) => (i : ℚ) * (mkRat 3 5)) ++ [(4 : ℚ)]
      else [0]) :=
  c1_studPositionsOC_amended.1 4 (mkRat 3 5) (by decide) (by norm_num)

/-- Claim **C1** counterexample: the wall length 0.1 m is ≥ 0.01 m, the spacing is
0.6, yet the computed stud positions are exactly `[0]` — the final position
is not the wall length, refuting the claim's universal "final position
forced to equal the exact wall length". -/
theorem c1_cex_short_wall :
    (1/100 : ℚ) ≤ mkRat 1 10 ∧ (0 : ℚ) < mkRat 3 5 ∧
    computeStudPositionsOC (mkRat 1 10) (mkRat 3 5) = [0] ∧
    (computeStudPositionsOC (mkRat 1 10) (mkRat 3 5)).getLastD 0 ≠ mkRat 1 10 := by
  refine ⟨by norm_num [mkRat_cast_eq_div], by decide, by decide, by decide⟩

/-!
## Stage type lemmas: which member types each stage can emit
-/

theorem foldrAppend_eq_nil {α β : Type} (f : α → List β) (l : List α)
    (h : ∀ x ∈ l, f x = []) : l.foldr (fun x acc => f x ++ acc) [] = [] := by
  induction l with
  | nil => rfl
  | cons x xs ih =>
    simp only [List.foldr_cons, h x (List.mem_cons_self x xs)]
    exact ih fun y hy => h y (List.mem_cons_of_mem x hy)

theorem filter_foldrAppend_eq_nil {α β : Type} (f : α → List β) (p : β → Bool) (l : List α)
    (h : ∀ x ∈ l, ∀ m ∈ f x, ¬ p m) :
    (l.foldr (fun x acc => f x ++ acc) []).filter p = [] := by
  rw [foldrAppend_filter]
  exact foldrAppend_eq_nil _ _ fun x hx => List.filter_eq_nil_iff.mpr (h x hx)

theorem foldrAppend_length_const {α β : Type} (f : α → List β) (l : List α) (c : ℕ)
    (h : ∀ x ∈ l, (f x).length = c) :
    (l.foldr (fun x acc => f x ++ acc) []).length = c * l.length := by
  induction l with
  | nil => simp
  | cons x xs ih =>
    simp only [List.foldr_cons, List.length_append, List.length_cons,
      h x (List.mem_cons_self x xs), ih fun y hy => h y (List.mem_cons_of_mem x hy)]
    ring

theorem studAt_types (wall : Wall) (dir : WallDir) (params : FrameParams)
    (zones : List OpeningZone) (jps : List ℚ) (t : ℚ) :
    ∀ m ∈ studAt wall dir params zones jps t,
      m.type = MemberType.stud ∨ m.type = MemberType.cripple_stud := by
  intro m hm
  unfold studAt at hm
  dsimp only at hm
  split at hm
  · rcases List.mem_append.mp hm with h | h
    · split at h
      · rw [List.mem_singleton] at h
        subst h
        exact Or.inr rfl
      · exact absurd h (List.not_mem_nil m)
    · split at h
      · rw [List.mem_singleton] at h
        subst h
        exact Or.inr rfl
      · exact absurd h (List.not_mem_nil m)
  · split at hm
    · exact absurd hm (List.not_mem_nil m)
    · split at hm
      · rw [List.mem_singleton] at hm
        subst hm
        exact Or.inl rfl
      · exact absurd hm (List.not_mem_nil m)

theorem frameOpening_types (wall : Wall) (dir : WallDir) (params : FrameParams)
    (zone : OpeningZone) (sp : List ℚ) :
    ∀ m ∈ frameOpening wall dir params zone sp,
      m.type = MemberType.king_stud ∨ m.type = MemberType.trimmer ∨
      m.type = MemberType.header ∨ m.type = MemberType.sill_plate := by
  intro m hm
  unfold frameOpening at hm
  dsimp only at hm
  rcases List.mem_append.mp hm with h | h
  · simp only [List.mem_cons, List.not_mem_nil, or_false] at h
    rcases h with h | h | h | h | h <;> (subst h; simp)
  · split at h
    · rw [List.mem_singleton] at h
      subst h
      simp
    · exact absurd h (List.not_mem_nil m)

theorem noggingsFromPairs_types (wall : Wall) (dir : WallDir) (params : FrameParams)
    (zones : List OpeningZone) (ny : ℚ) :
    ∀ (l : List ℚ), ∀ m ∈ noggingsFromPairs wall dir params zones ny l,
      m.type = MemberType.nogging := by
  intro l
  induction l with
  | nil =>
    intro m hm
    exact absurd hm (List.not_mem_nil m)
  | cons t1 rest ih =>
    intro m hm
    match rest, hm with
    | [], hm => exact absurd hm (List.not_mem_nil m)
    | t2 :: rest2, hm =>
      unfold noggingsFromPairs at hm
      rcases List.mem_append.mp hm with h | h
      · split at h
        · exact absurd h (List.not_mem_nil m)
        · split at h
          · exact absurd h (List.not_mem_nil m)
          · split at h
            · exact absurd h (List.not_mem_nil m)
            · rw [List.mem_singleton] at h
              subst h
              rfl
      · exact ih m h

theorem addNoggings_types (wall : Wall) (dir : WallDir) (params : FrameParams)
    (sp : List ℚ) (zones : List OpeningZone) :
    ∀ m ∈ addNoggingsWithOpenings wall dir params sp zones,
      m.type = MemberType.nogging := by
  intro m hm
  unfold addNoggingsWithOpenings at hm
  exact noggingsFromPairs_types wall dir params zones _ _ m hm

/-!
## C7: the three plates
-/

/-- Claim **C7**: for every wall direction record of length ≥ 0.01 m the wall
framer emits exactly 3 plate-typed members — bottom plate at y = 0, top
plate at y = wallHeight − 2·studWidth, double top plate at
y = wallHeight − studWidth, each of cross-section (studWidth, studDepth)
and spanning the wall endpoint-to-endpoint — and hence at least 3 members
overall, for any openings and junctions whatsoever. -/
theorem c7_three_plates (wall : Wall) (dir : WallDir) (params : FrameParams)
    (openings : List Opening) (junctions : List Junction)
    (h : (1/100 : ℚ) ≤ dir.length) :
    (generateWallFrame wall dir params openings junctions).filter
        (fun m => m.type == MemberType.bottom_plate || m.type == MemberType.top_plate ||
          m.type == MemberType.double_top_plate) =
      [{ start := { x := wall.start.x, y := 0, z := wall.start.z }
         end_ := { x := wall.end_.x, y := 0, z := wall.end_.z }
         width := params.studWidth, depth := params.studDepth
         type := MemberType.bottom_plate, wallId := wall.id },
       { start := { x := wall.start.x, y := params.wallHeight - params.studWidth * 2, z := wall.start.z }
         end_ := { x := wall.end_.x, y := params.wallHeight - params.studWidth * 2, z := wall.end_.z }
         width := params.studWidth, depth := params.studDepth
         type := MemberType.top_plate, wallId := wall.id },
       { start := { x := wall.start.x, y := params.wallHeight - params.studWidth, z := wall.start.z }
         end_ := { x := wall.end_.x, y := params.wallHeight - params.studWidth, z := wall.end_.z }
         width := params.studWidth, depth := params.studDepth
         type := MemberType.double_top_plate, wallId := wall.id }] ∧
    3 ≤ (generateWallFrame wall dir params openings junctions).length := by
  have hmk : (mkRat 1 100 : ℚ) = 1/100 := by
    rw [mkRat_cast_eq_div]
    norm_num
  have hcond : ¬ dir.length < mkRat 1 100 := by
    rw [hmk]
    exact not_lt.mpr h
  rw [generateWallFrame, if_neg hcond]
  constructor
  · rw [List.filter_append, List.filter_append, List.filter_append]
    rw [filter_foldrAppend_eq_nil _ _ _ (fun t ht m hm => by
      rcases studAt_types wall dir params _ _ t m hm with h2 | h2 <;> simp [h2])]
    rw [filter_foldrAppend_eq_nil _ _ _ (fun z hz m hm => by
      rcases frameOpening_types wall dir params z _ m hm with h2 | h2 | h2 | h2 <;> simp [h2])]
    have hnog : (if params.noggings then
        addNoggingsWithOpenings wall dir params
          (computeStudPositionsOC dir.length params.studSpacing)
          (zonesOf openings params.studWidth) else []).filter
        (fun m => m.type == MemberType.bottom_plate || m.type == MemberType.top_plate ||
          m.type == MemberType.double_top_plate) = [] := by
      split
      · exact List.filter_eq_nil_iff.mpr fun m hm => by
          simp [addNoggings_types wall dir params _ _ m hm]
      · rfl
    rw [hnog]
    simp [createPlate, qsub_eq, qmul_eq, List.filter]
  · simp only [List.length_append, List.length_cons]
    omega

/-- Witness for C7 at the Scenario A wall. -/
theorem c7_three_plates_witness :
    scFrameA.filter
        (fun m => m.type == MemberType.bottom_plate || m.type == MemberType.top_plate ||
          m.type == MemberType.double_top_plate) =
      [{ start := { x := 0, y := 0, z := 0 }
         end_ := { x := 4, y := 0, z := 0 }
         width := scParams.studWidth, depth := scParams.studDepth
         type := MemberType.bottom_plate, wallId := "w1" },
       { start := { x := 0, y := scParams.wallHeight - scParams.studWidth * 2, z := 0 }
         end_ := { x := 4, y := scParams.wallHeight - scParams.studWidth * 2, z := 0 }
         width := scParams.studWidth, depth := scParams.studDepth
         type := MemberType.top_plate, wallId := "w1" },
       { start := { x := 0, y := scParams.wallHeight - scParams.studWidth, z := 0 }
         end_ := { x := 4, y := scParams.wallHeight - scParams.studWidth, z := 0 }
         width := scParams.studWidth, depth := scParams.studDepth
         type := MemberType.double_top_plate, wallId := "w1" }] ∧
    3 ≤ scFrameA.length := by
  have := c7_three_plates scWall (computeWallDir scWall 4) scParams [] []
    (by rw [computeWallDir]; norm_num)
  refine ⟨?_, this.2⟩
  rw [show scFrameA = generateWallFrame scWall (computeWallDir scWall 4) scParams [] [] from rfl,
    this.1]
  norm_num [scWall, mkExtWall, scParams]

/-!
## C2: opening framing
-/

/-- Claim **C2**: for every opening zone, independent of the stud grid, the wall
framer emits exactly two full-height king studs at the zone edges, two
trimmers inset by one stud width spanning cavity floor to `headerY`, one
header at `headerY` with doubled width and full stud depth — and, for
windows only, exactly one sill plate at `sillY` spanning trimmer to
trimmer (doors: none).  Zones give `headerY = plateThick+sillHeight+height`
and `sillY = plateThick+sillHeight` with `plateThick = studWidth`.
Scenario C: exactly 2 king studs, 2 trimmers, 1 header at y = 2.145 and
1 sill plate at y = 0.945. -/
theorem c2_opening_framing :
    (∀ (wall : Wall) (dir : WallDir) (params : FrameParams) (zone : OpeningZone) (sp : List ℚ),
      frameOpening wall dir params zone sp =
        [{ start := { x := wall.start.x + dir.dirX * zone.left, y := params.studWidth
                      z := wall.start.z + dir.dirZ * zone.left }
           end_ := { x := wall.start.x + dir.dirX * zone.left
                     y := params.wallHeight - params.studWidth * 2
                     z := wall.start.z + dir.dirZ * zone.left }
           width := params.studWidth, depth := params.studDepth
           type := MemberType.king_stud, wallId := wall.id },
         { start := { x := wall.start.x + dir.dirX * zone.right, y := params.studWidth
                      z := wall.start.z + dir.dirZ * zone.right }
           end_ := { x := wall.start.x + dir.dirX * zone.right
                     y := params.wallHeight - params.studWidth * 2
                     z := wall.start.z + dir.dirZ * zone.right }
           width := params.studWidth, depth := params.studDepth
           type := MemberType.king_stud, wallId := wall.id },
         { start := { x := wall.start.x + dir.dirX * (zone.left + params.studWidth)
                      y := params.studWidth
                      z := wall.start.z + dir.dirZ * (zone.left + params.studWidth) }
           end_ := { x := wall.start.x + dir.dirX * (zone.left + params.studWidth)
                     y := zone.headerY
                     z := wall.start.z + dir.dirZ * (zone.left + params.studWidth) }
           width := params.studWidth, depth := params.studDepth
           type := MemberType.trimmer, wallId := wall.id },
         { start := { x := wall.start.x + dir.dirX * (zone.right - params.studWidth)
                      y := params.studWidth
                      z := wall.start.z + dir.dirZ * (zone.right - params.studWidth) }
           end_ := { x := wall.start.x + dir.dirX * (zone.right - params.studWidth)
                     y := zone.headerY
                     z := wall.start.z + dir.dirZ * (zone.right - params.studWidth) }
           width := params.studWidth, depth := params.studDepth
           type := MemberType.trimmer, wallId := wall.id },
         { start := { x := wall.start.x + dir.dirX * zone.left, y := zone.headerY
                      z := wall.start.z + dir.dirZ * zone.left }
           end_ := { x := wall.start.x + dir.dirX * zone.right, y := zone.headerY
                     z := wall.start.z + dir.dirZ * zone.right }
           width := params.studWidth * 2, depth := params.studDepth
           type := MemberType.header, wallId := wall.id }] ++
        (if zone.opening.type = OpeningType.window then
          [{ start := { x := wall.start.x + dir.dirX * (zone.left + params.studWidth)
                        y := zone.sillY
                        z := wall.start.z + dir.dirZ * (zone.left + params.studWidth) }
             end_ := { x := wall.start.x + dir.dirX * (zone.right - params.studWidth)
                       y := zone.sillY
                       z := wall.start.z + dir.dirZ * (zone.right - params.studWidth) }
             width := params.studWidth, depth := params.studDepth
             type := MemberType.sill_plate, wallId := wall.id }]
         else [])) ∧
    (∀ (openings : List Opening) (plateThick : ℚ),
      (zonesOf openings plateThick).map OpeningZone.headerY =
        openings.map (fun o => plateThick + o.sillHeight + o.height) ∧
      (zonesOf openings plateThick).map OpeningZone.sillY =
        openings.map (fun o => plateThick + o.sillHeight)) ∧
    (∀ (wall : Wall) (dir : WallDir) (params : FrameParams) (zone : OpeningZone) (sp : List ℚ),
      ((frameOpening wall dir params zone sp).filter
          (fun m => m.type == MemberType.sill_plate)).length =
        (if zone.opening.type = OpeningType.window then 1 else 0)) ∧
    (scFrameC.filter (fun m => m.type == MemberType.king_stud)).length = 2 ∧
    (scFrameC.filter (fun m => m.type == MemberType.trimmer)).length = 2 ∧
    (scFrameC.filter (fun m => m.type == MemberType.header)).length = 1 ∧
    (scFrameC.filter (fun m => m.type == MemberType.sill_plate)).length = 1 ∧
    (∀ m ∈ scFrameC, m.type = MemberType.header → m.start.y = mkRat 429 200) ∧
    (∀ m ∈ scFrameC, m.type = MemberType.sill_plate → m.start.y = mkRat 189 200) := by
  refine ⟨?_, ?_, ?_, by decide, by decide, by decide, by decide, by decide, by decide⟩
  · intro wall dir params zone sp
    simp only [frameOpening, qadd_eq, qsub_eq, qmul_eq]
  · intro openings plateThick
    constructor <;> simp [zonesOf, qadd_eq, List.map_map]
  · intro wall dir params zone sp
    rcases h : zone.opening.type <;> simp [frameOpening, h, List.filter_cons, beq_iff_eq]

/-- Witness for C2 at the Scenario C header member. -/
theorem c2_opening_framing_witness :
    (⟨⟨mkRat 31 20, mkRat 429 200, 0⟩, ⟨mkRat 49 20, mkRat 429 200, 0⟩,
      mkRat 9 100, mkRat 19 200, MemberType.header, "w1"⟩ : TimberMember).start.y
      = mkRat 429 200 :=
  c2_opening_framing.2.2.2.2.2.2.2.1 _ (by decide) rfl

/-!
## C3: cripple studs at openings
-/

theorem studAt_zone_eq (wall : Wall) (dir : WallDir) (params : FrameParams)
    (zones : List OpeningZone) (jps : List ℚ) (t : ℚ) (zone : OpeningZone)
    (hfind : zones.find? (fun z =>
      decide (t > qadd z.left EPS) && decide (t < qsub z.right EPS)) = some zone) :
    studAt wall dir params zones jps t =
      (if zone.headerY + params.studWidth * 2 + EPS < params.wallHeight - params.studWidth * 2 then
        [{ start := { x := wall.start.x + dir.dirX * t, y := zone.headerY + params.studWidth * 2
                      z := wall.start.z + dir.dirZ * t }
           end_ := { x := wall.start.x + dir.dirX * t
                     y := params.wallHeight - params.studWidth * 2
                     z := wall.start.z + dir.dirZ * t }
           width := params.studWidth, depth := params.studDepth
           type := MemberType.cripple_stud, wallId := wall.id }]
      else []) ++
      (if zone.opening.type = OpeningType.window ∧ zone.sillY > params.studWidth + EPS then
        [{ start := { x := wall.start.x + dir.dirX * t, y := params.studWidth
                      z := wall.start.z + dir.dirZ * t }
           end_ := { x := wall.start.x + dir.dirX * t, y := zone.sillY
                     z := wall.start.z + dir.dirZ * t }
           width := params.studWidth, depth := params.studDepth
           type := MemberType.cripple_stud, wallId := wall.id }]
      else []) := by
  unfold studAt
  rw [hfind]
  simp only [qadd_eq, qsub_eq, qmul_eq]

/-- Claim **C3** (amended): an on-center position strictly inside an opening zone
(margin EPS) yields an upper cripple stud spanning from the TOP OF THE
HEADER (`headerY + 2·studWidth`, not `headerY`) to the underside of the top
plate, emitted when that span exceeds EPS (not merely positive), and — for
windows only — a lower cripple stud from the cavity floor to `sillY`,
emitted when `sillY` exceeds the cavity floor by more than EPS; doors never
get a lower cripple.  Such members belong to the generated wall frame
whenever the position is on the wall's stud grid. -/
theorem c3_cripples_amended :
    (∀ (wall : Wall) (dir : WallDir) (params : FrameParams) (zones : List OpeningZone)
        (jps : List ℚ) (t : ℚ) (zone : OpeningZone),
      zones.find? (fun z =>
          decide (t > qadd z.left EPS) && decide (t < qsub z.right EPS)) = some zone →
      studAt wall dir params zones jps t =
        (if zone.headerY + params.studWidth * 2 + EPS
            < params.wallHeight - params.studWidth * 2 then
          [{ start := { x := wall.start.x + dir.dirX * t, y := zone.headerY + params.studWidth * 2
                        z := wall.start.z + dir.dirZ * t }
             end_ := { x := wall.start.x + dir.dirX * t
                       y := params.wallHeight - params.studWidth * 2
                       z := wall.start.z + dir.dirZ * t }
             width := params.studWidth, depth := params.studDepth
             type := MemberType.cripple_stud, wallId := wall.id }]
        else []) ++
        (if zone.opening.type = OpeningType.window ∧ zone.sillY > params.studWidth + EPS then
          [{ start := { x := wall.start.x + dir.dirX * t, y := params.studWidth
                        z := wall.start.z + dir.dirZ * t }
             end_ := { x := wall.start.x + dir.dirX * t, y := zone.sillY
                       z := wall.start.z + dir.dirZ * t }
             width := params.studWidth, depth := params.studDepth
             type := MemberType.cripple_stud, wallId := wall.id }]
        else [])) ∧
    (∀ (wall : Wall) (dir : WallDir) (params : FrameParams) (zones : List OpeningZone)
        (jps : List ℚ) (t : ℚ) (zone : OpeningZone),
      zones.find? (fun z =>
          decide (t > qadd z.left EPS) && decide (t < qsub z.right EPS)) = some zone →
      zone.opening.type = OpeningType.door →
      ∀ m ∈ studAt wall dir params zones jps t,
        m.end_.y = params.wallHeight - params.studWidth * 2) ∧
    (∀ (wall : Wall) (dir : WallDir) (params : FrameParams) (openings : List Opening)
        (junctions : List Junction) (t : ℚ),
      ¬ dir.length < (1/100 : ℚ) →
      t ∈ computeStudPositionsOC dir.length params.studSpacing →
      ∀ m ∈ studAt wall dir params (zonesOf openings params.studWidth)
          (junctionPositionsFor junctions wall dir
            (computeStudPositionsOC dir.length params.studSpacing) params.studDepth) t,
        m ∈ generateWallFrame wall dir params openings junctions) := by
  refine ⟨studAt_zone_eq, ?_, ?_⟩
  · intro wall dir params zones jps t zone hfind hdoor m hm
    rw [studAt_zone_eq wall dir params zones jps t zone hfind] at hm
    have hwin : ¬ (zone.opening.type = OpeningType.window ∧
        zone.sillY > params.studWidth + EPS) := by
      simp [hdoor]
    rw [if_neg hwin, List.append_nil] at hm
    split at hm
    · rw [List.mem_singleton] at hm
      subst hm
      rfl
    · exact absurd hm (List.not_mem_nil m)
  · intro wall dir params openings junctions t hlen ht m hm
    rw [generateWallFrame]
    rw [if_neg (by rwa [show (mkRat 1 100 : ℚ) = 1/100 from by rw [mkRat_cast_eq_div]; norm_num])]
    refine List.mem_append.mpr (Or.inl (List.mem_append.mpr (Or.inl
      (List.mem_append.mpr (Or.inr ?_)))))
    exact (mem_foldrAppend _ _ m).mpr ⟨t, ht, hm⟩

/-- Witness for the amended C3 theorem: at Scenario C the upper cripple at
the on-center position 1.8 — spanning 2.235 (= headerY + 2·studWidth) to
2.31 — is a member of the generated frame. -/
theorem c3_cripples_amended_witness :
    (⟨⟨mkRat 9 5, mkRat 447 200, 0⟩, ⟨mkRat 9 5, mkRat 231 100, 0⟩,
      mkRat 9 200, mkRat 19 200, MemberType.cripple_stud, "w1"⟩ : TimberMember) ∈
      generateWallFrame scWall (computeWallDir scWall 4) scParams [scWindow] [] :=
  c3_cripples_amended.2.2 scWall (computeWallDir scWall 4) scParams [scWindow] [] (mkRat 9 5)
    (by norm_num [computeWallDir]) (by decide) _ (by decide)

/-- Claim **C3** counterexample: at Scenario C the position 1.8 is on the stud
grid and strictly inside the window zone, the span from `headerY` (2.145)
to the top-plate underside (2.31) is positive, yet NO cripple stud spanning
2.145 → 2.31 is emitted anywhere on the wall (the emitted upper cripple
starts at the header top 2.235 instead). -/
theorem c3_cex_cripple_start :
    (mkRat 9 5) ∈ computeStudPositionsOC 4 (mkRat 3 5) ∧
    ((zonesOf [scWindow] scParams.studWidth).all (fun z =>
      decide (mkRat 9 5 > qadd z.left EPS) && decide (mkRat 9 5 < qsub z.right EPS))) = true ∧
    ((zonesOf [scWindow] scParams.studWidth).all (fun z =>
      decide (0 < qsub (qsub scParams.wallHeight (qmul scParams.studWidth 2)) z.headerY))) = true ∧
    ¬ ∃ m ∈ scFrameC, m.type = MemberType.cripple_stud ∧
      m.start.y = mkRat 429 200 ∧ m.end_.y = mkRat 231 100 := by
  refine ⟨by decide, by decide, by decide, by decide⟩

/-!
## C8 and C10: degenerate input handling
-/

theorem generateWallFrame_eq_nil_of_short (wall : Wall) (dir : WallDir) (params : FrameParams)
    (openings : List Opening) (junctions : List Junction)
    (h : dir.length < (1/100 : ℚ)) :
    generateWallFrame wall dir params openings junctions = [] := by
  rw [generateWallFrame,
    if_pos (by rwa [show (mkRat 1 100 : ℚ) = 1/100 from by rw [mkRat_cast_eq_div]; norm_num])]

theorem computeWallDir_zero_of_short (wall : Wall) (len : ℚ) (h : len ≤ EPS) :
    (computeWallDir wall len).dirX = 0 ∧ (computeWallDir wall len).dirZ = 0 ∧
    (computeWallDir wall len).normX = 0 ∧ (computeWallDir wall len).normZ = 0 := by
  have hng : ¬ len > EPS := not_lt.mpr h
  refine ⟨?_, ?_, ?_, ?_⟩ <;> simp [computeWallDir, hng]

theorem foldrAppend_congr {α β : Type} (f g : α → List β) (l : List α)
    (h : ∀ x ∈ l, f x = g x) :
    l.foldr (fun x acc => f x ++ acc) [] = l.foldr (fun x acc => g x ++ acc) [] := by
  induction l with
  | nil => rfl
  | cons x xs ih =>
    simp only [List.foldr_cons, h x (List.mem_cons_self x xs)]
    rw [ih fun y hy => h y (List.mem_cons_of_mem x hy)]

/-- Claim **C8** (amended): a wall of length < 0.01 m contributes no members
through per-wall framing (the wall framer returns the empty list), and a
wall of length ≤ EPS has zero direction and normal vectors — but such a
wall is NOT excluded from junction detection: when its endpoint coincides
with another wall's endpoint it forms a corner junction and receives a
corner stud carrying its own wallId. -/
theorem c8_degenerate_walls_amended :
    (∀ (wall : Wall) (dir : WallDir) (params : FrameParams)
        (openings : List Opening) (junctions : List Junction),
      dir.length < (1/100 : ℚ) →
      generateWallFrame wall dir params openings junctions = []) ∧
    (∀ (wall : Wall) (len : ℚ), len ≤ EPS →
      (computeWallDir wall len).dirX = 0 ∧ (computeWallDir wall len).dirZ = 0 ∧
      (computeWallDir wall len).normX = 0 ∧ (computeWallDir wall len).normZ = 0) ∧
    (degFrame.members.filter (fun m => m.wallId == "wd")).length = 1 ∧
    (∀ m ∈ degFrame.members, m.wallId = "wd" → m.type = MemberType.corner_stud) := by
  exact ⟨generateWallFrame_eq_nil_of_short, computeWallDir_zero_of_short, by decide, by decide⟩

/-- Witness for the amended C8 theorem at the concrete zero-length wall. -/
theorem c8_degenerate_walls_amended_witness :
    generateWallFrame
      { id := "wd", start := { x := 0, z := 0 }, end_ := { x := 0, z := 0 },
        wallType := WallType.interior }
      (computeWallDir
        { id := "wd", start := { x := 0, z := 0 }, end_ := { x := 0, z := 0 },
          wallType := WallType.interior } 0) scParams [] [] = [] :=
  c8_degenerate_walls_amended.1 _ _ scParams [] [] (by norm_num [computeWallDir])

/-- Claim **C8** counterexample: the zero-length wall "wd" (start = end = (0,0),
length 0 < 0.01) of `degWalls` receives exactly one member carrying its
wallId — a corner stud emitted by junction framing — refuting "no member
of any type carries a degenerate wall's wallId". -/
theorem c8_cex_corner_stud_on_degenerate :
    (∃ w ∈ degWalls, w.id = "wd" ∧ w.start = w.end_) ∧
    (degFrame.members.filter (fun m => m.wallId == "wd" &&
      m.type == MemberType.corner_stud)).length = 1 := by
  exact ⟨by decide, by decide⟩

/-- Claim **C10**: `generate` is a total function; an empty wall list produces no
members; openings whose `wallId` matches no wall are dropped exactly (the
output equals the output on the filtered opening list); a wall of length
< 0.01 m contributes no per-wall members; and the concrete opening wider
than its host wall still yields a complete 25-member frame. -/
theorem c10_degenerate_inputs :
    (∀ (params : FrameParams) (openings : List Opening) (lenOf : Wall → ℚ) (tanPitch : ℚ),
      (generate [] params openings lenOf tanPitch).members = []) ∧
    (∀ (walls : List Wall) (params : FrameParams) (openings : List Opening)
        (lenOf : Wall → ℚ) (tanPitch : ℚ),
      generate walls params openings lenOf tanPitch =
        generate walls params
          (openings.filter (fun o => walls.any (fun w => w.id == o.wallId))) lenOf tanPitch) ∧
    (∀ (wall : Wall) (dir : WallDir) (params : FrameParams)
        (openings : List Opening) (junctions : List Junction),
      dir.length < (1/100 : ℚ) →
      generateWallFrame wall dir params openings junctions = []) ∧
    (generate [scWall] scParams [wideOpening] (fun _ => 4) 0).members.length = 25 := by
  refine ⟨?_, ?_, generateWallFrame_eq_nil_of_short, by decide⟩
  · intro params openings lenOf tanPitch
    rcases hroof : params.roof with _ | roof <;>
      simp [generate, detectJunctions, buildPointMap, generateJunctionFraming,
        generateRoof, extWallsOf, hroof]
  · intro walls params openings lenOf tanPitch
    have hwm : ∀ wall ∈ walls,
        (openings.filter (fun o => walls.any (fun w => w.id == o.wallId))).filter
            (fun o => o.wallId == wall.id)
          = openings.filter (fun o => o.wallId == wall.id) := by
      intro wall hwall
      rw [List.filter_filter]
      refine List.filter_congr fun o _ => ?_
      by_cases hp : o.wallId == wall.id
      · have hq : walls.any (fun w => w.id == o.wallId) = true := by
          refine List.any_eq_true.mpr ⟨wall, hwall, ?_⟩
          have : o.wallId = wall.id := by
            exact eq_of_beq hp
          simp [this]
        simp [hp, hq]
      · simp [Bool.eq_false_iff.mpr hp]
    simp only [generate]
    refine congrArg₂ TimberFrame.mk ?_ rfl
    refine congrArg₂ _ ?_ rfl
    refine congrArg₂ _ ?_ rfl
    exact foldrAppend_congr _ _ walls fun wall hwall => by rw [hwm wall hwall]

/-- Witness for C10's degenerate-wall conjunct at the concrete zero-length
wall direction. -/
theorem c10_degenerate_inputs_witness :
    generateWallFrame scWall (computeWallDir scWall 0) scParams [scWindow] [] = [] :=
  c10_degenerate_inputs.2.2.1 scWall (computeWallDir scWall 0) scParams [scWindow] []
    (by norm_num [computeWallDir])

/-!
## C6: the gable roof
-/

theorem gableBayX_filter_rafter (params : FrameParams) (roof : RoofConfig)
    (tanPitch minX minZ maxZ rstep : ℚ) (i : Nat) :
    ((gableBayX params roof tanPitch minX minZ maxZ rstep i).filter
      (fun m => m.type == MemberType.rafter)).length = 2 := by
  unfold gableBayX
  dsimp only
  split <;> simp [List.filter_cons, List.filter_append, beq_iff_eq]

theorem gableBayX_filter_collar (params : FrameParams) (roof : RoofConfig)
    (tanPitch minX minZ maxZ rstep : ℚ) (i : Nat) :
    ((gableBayX params roof tanPitch minX minZ maxZ rstep i).filter
      (fun m => m.type == MemberType.collar_tie)).length =
      (if qdiv (qsub maxZ minZ) 2 > 1 then 1 else 0) := by
  unfold gableBayX
  dsimp only
  split <;> simp [List.filter_cons, List.filter_append, beq_iff_eq]

theorem gableBayX_rafter_geom (params : FrameParams) (roof : RoofConfig)
    (tanPitch minX minZ maxZ rstep : ℚ) (i : Nat) :
    ∀ m ∈ gableBayX params roof tanPitch minX minZ maxZ rstep i,
      m.type = MemberType.rafter →
      (m.start.y = params.wallHeight ∧
        m.end_.y = params.wallHeight + tanPitch * ((maxZ - minZ)/2) ∧
        m.start.z = minZ - roof.overhang ∧ m.end_.z = (minZ + maxZ)/2 ∧
        m.end_.x = m.start.x) ∨
      (m.start.y = params.wallHeight + tanPitch * ((maxZ - minZ)/2) ∧
        m.end_.y = params.wallHeight ∧
        m.start.z = (minZ + maxZ)/2 ∧ m.end_.z = maxZ + roof.overhang ∧
        m.end_.x = m.start.x) := by
  intro m hm htype
  unfold gableBayX at hm
  dsimp only at hm
  rcases List.mem_append.mp hm with h | h
  · simp only [List.mem_cons, List.not_mem_nil, or_false] at h
    rcases h with h | h | h
    · subst h
      left
      refine ⟨rfl, ?_, ?_, ?_, rfl⟩ <;> simp [qadd_eq, qsub_eq, qmul_eq, qdiv_eq]
    · subst h
      right
      refine ⟨?_, rfl, ?_, ?_, rfl⟩ <;> simp [qadd_eq, qsub_eq, qmul_eq, qdiv_eq]
    · subst h
      exact absurd htype (by simp)
  · split at h
    · rw [List.mem_singleton] at h
      subst h
      exact absurd htype (by simp)
    · exact absurd h (List.not_mem_nil m)

theorem gableBayX_collar_geom (params : FrameParams) (roof : RoofConfig)
    (tanPitch minX minZ maxZ rstep : ℚ) (i : Nat) :
    ∀ m ∈ gableBayX params roof tanPitch minX minZ maxZ rstep i,
      m.type = MemberType.collar_tie →
      (m.start.y = params.wallHeight + tanPitch * ((maxZ - minZ)/2) * (3/5) ∧
        m.end_.y = m.start.y ∧
        m.start.z = (minZ + maxZ)/2 - ((maxZ - minZ)/2) * (2/5) ∧
        m.end_.z = (minZ + maxZ)/2 + ((maxZ - minZ)/2) * (2/5) ∧
        m.end_.x = m.start.x) := by
  intro m hm htype
  unfold gableBayX at hm
  dsimp only at hm
  rcases List.mem_append.mp hm with h | h
  · simp only [List.mem_cons, List.not_mem_nil, or_false] at h
    rcases h with h | h | h <;> (subst h; exact absurd htype (by simp))
  · split at h
    · rw [List.mem_singleton] at h
      subst h
      refine ⟨?_, rfl, ?_, ?_, rfl⟩ <;>
        (simp only [qadd_eq, qsub_eq, qmul_eq, qdiv_eq, mkRat_cast_eq_div] ; push_cast ; ring_nf)
    · exact absurd h (List.not_mem_nil m)

theorem gableBayX_types (params : FrameParams) (roof : RoofConfig)
    (tanPitch minX minZ maxZ rstep : ℚ) (i : Nat) :
    ∀ m ∈ gableBayX params roof tanPitch minX minZ maxZ rstep i,
      m.type = MemberType.rafter ∨ m.type = MemberType.ceiling_joist ∨
      m.type = MemberType.collar_tie := by
  intro m hm
  unfold gableBayX at hm
  dsimp only at hm
  rcases List.mem_append.mp hm with h | h
  · simp only [List.mem_cons, List.not_mem_nil, or_false] at h
    rcases h with h | h | h <;> (subst h; simp)
  · split at h
    · rw [List.mem_singleton] at h
      subst h
      simp
    · exact absurd h (List.not_mem_nil m)

theorem gableRoofX_ridge (params : FrameParams) (roof : RoofConfig)
    (tanPitch minX maxX minZ maxZ : ℚ) :
    (gableRoofX params roof tanPitch minX maxX minZ maxZ).filter
        (fun m => m.type == MemberType.ridge_beam) =
      [{ start := { x := minX - roof.overhang
                    y := params.wallHeight + tanPitch * ((maxZ - minZ)/2)
                    z := (minZ + maxZ)/2 }
         end_ := { x := maxX + roof.overhang
                   y := params.wallHeight + tanPitch * ((maxZ - minZ)/2)
                   z := (minZ + maxZ)/2 }
         width := roof.rafterWidth * (3/2), depth := roof.rafterDepth * (6/5)
         type := MemberType.ridge_beam, wallId := "" }] := by
  unfold gableRoofX
  dsimp only
  have hb := filter_foldrAppend_eq_nil
    (fun i => gableBayX params roof tanPitch minX minZ maxZ
      (qdiv (qsub maxX minX) ((spacingCount (qsub maxX minX) params.studSpacing : ℤ) : ℚ)) i)
    (fun m => m.type == MemberType.ridge_beam)
    (List.range ((spacingCount (qsub maxX minX) params.studSpacing).toNat + 1))
    (fun i _ m hm => by
      rcases gableBayX_types params roof tanPitch minX minZ maxZ _ i m hm with h | h | h <;>
        simp [h])
  simp [List.filter_cons, List.filter_append, hb, beq_iff_eq,
    qadd_eq, qsub_eq, qmul_eq, qdiv_eq, mkRat_cast_eq_div]
  intro a ha
  rcases (mem_foldrAppend _ _ a).mp ha with ⟨i, _, hbay⟩
  rcases gableBayX_types params roof tanPitch minX minZ maxZ _ i a hbay with h | h | h <;>
    simp [h]

theorem gableRoofX_rafter_count (params : FrameParams) (roof : RoofConfig)
    (tanPitch minX maxX minZ maxZ : ℚ) :
    ((gableRoofX params roof tanPitch minX maxX minZ maxZ).filter
        (fun m => m.type == MemberType.rafter)).length =
      2 * ((spacingCount (maxX - minX) params.studSpacing).toNat + 1) := by
  unfold gableRoofX
  dsimp only
  have hb : (((List.range ((spacingCount (qsub maxX minX) params.studSpacing).toNat + 1)).foldr
      (fun i acc => gableBayX params roof tanPitch minX minZ maxZ
        (qdiv (qsub maxX minX) ((spacingCount (qsub maxX minX) params.studSpacing : ℤ) : ℚ)) i
        ++ acc) []).filter (fun m => m.type == MemberType.rafter)).length =
      2 * ((spacingCount (maxX - minX) params.studSpacing).toNat + 1) := by
    rw [foldrAppend_filter, foldrAppend_length_const _ _ 2 (fun i _ =>
      gableBayX_filter_rafter params roof tanPitch minX minZ maxZ _ i), qsub_eq]
    simp [Nat.mul_comm]
  simp only [qsub_eq, qdiv_eq] at hb
  simp [List.filter_cons, List.filter_append, hb, beq_iff_eq, qsub_eq, qdiv_eq]

theorem gableRoofX_collar_count (params : FrameParams) (roof : RoofConfig)
    (tanPitch minX maxX minZ maxZ : ℚ) :
    ((gableRoofX params roof tanPitch minX maxX minZ maxZ).filter
        (fun m => m.type == MemberType.collar_tie)).length =
      (if 1 < (maxZ - minZ)/2 then
        (spacingCount (maxX - minX) params.studSpacing).toNat + 1 else 0) := by
  unfold gableRoofX
  dsimp only
  by_cases hc : 1 < (maxZ - minZ)/2
  · have hq : qdiv (qsub maxZ minZ) 2 > 1 := by
      rw [qdiv_eq, qsub_eq]
      exact hc
    have hb : (((List.range ((spacingCount (qsub maxX minX) params.studSpacing).toNat + 1)).foldr
        (fun i acc => gableBayX params roof tanPitch minX minZ maxZ
          (qdiv (qsub maxX minX) ((spacingCount (qsub maxX minX) params.studSpacing : ℤ) : ℚ)) i
          ++ acc) []).filter (fun m => m.type == MemberType.collar_tie)).length =
        (spacingCount (maxX - minX) params.studSpacing).toNat + 1 := by
      rw [foldrAppend_filter, foldrAppend_length_const _ _ 1 (fun i _ => by
        rw [gableBayX_filter_collar params roof tanPitch minX minZ maxZ _ i, if_pos hq]), qsub_eq]
      simp
    rw [if_pos hc]
    simp only [qsub_eq, qdiv_eq] at hb
    simp [List.filter_cons, List.filter_append, hb, beq_iff_eq, qsub_eq, qdiv_eq]
  · have hq : ¬ qdiv (qsub maxZ minZ) 2 > 1 := by
      rw [qdiv_eq, qsub_eq]
      exact hc
    have hb : (((List.range ((spacingCount (qsub maxX minX) params.studSpacing).toNat + 1)).foldr
        (fun i acc => gableBayX params roof tanPitch minX minZ maxZ
          (qdiv (qsub maxX minX) ((spacingCount (qsub maxX minX) params.studSpacing : ℤ) : ℚ)) i
          ++ acc) []).filter (fun m => m.type == MemberType.collar_tie)).length = 0 := by
      rw [foldrAppend_filter, foldrAppend_length_const _ _ 0 (fun i _ => by
        rw [gableBayX_filter_collar params roof tanPitch minX minZ maxZ _ i, if_neg hq])]
      simp
    rw [if_neg hc]
    simp only [qsub_eq, qdiv_eq] at hb
    simp [List.filter_cons, List.filter_append, hb, beq_iff_eq, qsub_eq, qdiv_eq]

theorem gableRoofX_rafter_geom (params : FrameParams) (roof : RoofConfig)
    (tanPitch minX maxX minZ maxZ : ℚ) :
    ∀ m ∈ gableRoofX params roof tanPitch minX maxX minZ maxZ,
      m.type = MemberType.rafter →
      (m.start.y = params.wallHeight ∧
        m.end_.y = params.wallHeight + tanPitch * ((maxZ - minZ)/2) ∧
        m.start.z = minZ - roof.overhang ∧ m.end_.z = (minZ + maxZ)/2 ∧
        m.end_.x = m.start.x) ∨
      (m.start.y = params.wallHeight + tanPitch * ((maxZ - minZ)/2) ∧
        m.end_.y = params.wallHeight ∧
        m.start.z = (minZ + maxZ)/2 ∧ m.end_.z = maxZ + roof.overhang ∧
        m.end_.x = m.start.x) := by
  intro m hm htype
  unfold gableRoofX at hm
  dsimp only at hm
  rcases List.mem_cons.mp hm with h | h
  · subst h
    exact absurd htype (by simp)
  rcases List.mem_append.mp h with h2 | h2
  · rcases (mem_foldrAppend _ _ m).mp h2 with ⟨i, _, hbay⟩
    exact gableBayX_rafter_geom params roof tanPitch minX minZ maxZ _ i m hbay htype
  · simp only [List.mem_cons, List.not_mem_nil, or_false] at h2
    rcases h2 with h2 | h2 <;> (subst h2; exact absurd htype (by simp))

theorem gableRoofX_collar_geom (params : FrameParams) (roof : RoofConfig)
    (tanPitch minX maxX minZ maxZ : ℚ) :
    ∀ m ∈ gableRoofX params roof tanPitch minX maxX minZ maxZ,
      m.type = MemberType.collar_tie →
      (m.start.y = params.wallHeight + tanPitch * ((maxZ - minZ)/2) * (3/5) ∧
        m.end_.y = m.start.y ∧
        m.start.z = (minZ + maxZ)/2 - ((maxZ - minZ)/2) * (2/5) ∧
        m.end_.z = (minZ + maxZ)/2 + ((maxZ - minZ)/2) * (2/5) ∧
        m.end_.x = m.start.x) := by
  intro m hm htype
  unfold gableRoofX at hm
  dsimp only at hm
  rcases List.mem_cons.mp hm with h | h
  · subst h
    exact absurd htype (by simp)
  rcases List.mem_append.mp h with h2 | h2
  · rcases (mem_foldrAppend _ _ m).mp h2 with ⟨i, _, hbay⟩
    exact gableBayX_collar_geom params roof tanPitch minX minZ maxZ _ i m hbay htype
  · simp only [List.mem_cons, List.not_mem_nil, or_false] at h2
    rcases h2 with h2 | h2 <;> (subst h2; exact absurd htype (by simp))

theorem foldrAppend_map {α β γ : Type} (f : α → List β) (g : β → γ) (l : List α) :
    (l.foldr (fun x acc => f x ++ acc) []).map g
      = l.foldr (fun x acc => (f x).map g ++ acc) [] := by
  induction l with
  | nil => rfl
  | cons x xs ih => simp [ih]

theorem gableBayX_rafter_xs (params : FrameParams) (roof : RoofConfig)
    (tanPitch minX minZ maxZ rstep : ℚ) (i : Nat) :
    ((gableBayX params roof tanPitch minX minZ maxZ rstep i).filter
      (fun m => m.type == MemberType.rafter)).map (fun m => m.start.x)
      = [minX + (i : ℚ) * rstep, minX + (i : ℚ) * rstep] := by
  unfold gableBayX
  dsimp only
  split <;> simp [List.filter_cons, List.filter_append, beq_iff_eq, qadd_eq, qmul_eq]

theorem gableRoofX_rafter_xs (params : FrameParams) (roof : RoofConfig)
    (tanPitch minX maxX minZ maxZ : ℚ) :
    ((gableRoofX params roof tanPitch minX maxX minZ maxZ).filter
        (fun m => m.type == MemberType.rafter)).map (fun m => m.start.x)
      = (List.range ((spacingCount (maxX - minX) params.studSpacing).toNat + 1)).foldr
          (fun (i : ℕ) acc =>
            (minX + (i : ℚ) * ((maxX - minX) /
              ((spacingCount (maxX - minX) params.studSpacing : ℤ) : ℚ))) ::
            (minX + (i : ℚ) * ((maxX - minX) /
              ((spacingCount (maxX - minX) params.studSpacing : ℤ) : ℚ))) :: acc) [] := by
  unfold gableRoofX
  dsimp only
  have hb : (((List.range ((spacingCount (qsub maxX minX) params.studSpacing).toNat + 1)).foldr
      (fun i acc => gableBayX params roof tanPitch minX minZ maxZ
        (qdiv (qsub maxX minX) ((spacingCount (qsub maxX minX) params.studSpacing : ℤ) : ℚ)) i
        ++ acc) []).filter (fun m => m.type == MemberType.rafter)).map (fun m => m.start.x)
      = (List.range ((spacingCount (qsub maxX minX) params.studSpacing).toNat + 1)).foldr
          (fun (i : ℕ) acc =>
            (minX + (i : ℚ) * (qdiv (qsub maxX minX)
              ((spacingCount (qsub maxX minX) params.studSpacing : ℤ) : ℚ))) ::
            (minX + (i : ℚ) * (qdiv (qsub maxX minX)
              ((spacingCount (qsub maxX minX) params.studSpacing : ℤ) : ℚ))) :: acc) [] := by
    rw [foldrAppend_filter, foldrAppend_map,
      foldrAppend_congr _ _ _ (fun i _ => gableBayX_rafter_xs params roof tanPitch
        minX minZ maxZ _ i)]
    rfl
  simp only [qsub_eq, qdiv_eq] at hb
  simp [List.filter_cons, List.filter_append, List.map_append, hb, beq_iff_eq,
    qsub_eq, qdiv_eq]

theorem gableBayZ_filter_rafter (params : FrameParams) (roof : RoofConfig)
    (tanPitch minX maxX minZ rstep : ℚ) (i : Nat) :
    ((gableBayZ params roof tanPitch minX maxX minZ rstep i).filter
      (fun m => m.type == MemberType.rafter)).length = 2 := by
  unfold gableBayZ
  dsimp only
  split <;> simp [List.filter_cons, List.filter_append, beq_iff_eq]

theorem gableBayZ_filter_collar (params : FrameParams) (roof : RoofConfig)
    (tanPitch minX maxX minZ rstep : ℚ) (i : Nat) :
    ((gableBayZ params roof tanPitch minX maxX minZ rstep i).filter
      (fun m => m.type == MemberType.collar_tie)).length =
      (if qdiv (qsub maxX minX) 2 > 1 then 1 else 0) := by
  unfold gableBayZ
  dsimp only
  split <;> simp [List.filter_cons, List.filter_append, beq_iff_eq]

theorem gableBayZ_rafter_geom (params : FrameParams) (roof : RoofConfig)
    (tanPitch minX maxX minZ rstep : ℚ) (i : Nat) :
    ∀ m ∈ gableBayZ params roof tanPitch minX maxX minZ rstep i,
      m.type = MemberType.rafter →
      (m.start.y = params.wallHeight ∧
        m.end_.y = params.wallHeight + tanPitch * ((maxX - minX)/2) ∧
        m.start.x = minX - roof.overhang ∧ m.end_.x = (minX + maxX)/2 ∧
        m.end_.z = m.start.z) ∨
      (m.start.y = params.wallHeight + tanPitch * ((maxX - minX)/2) ∧
        m.end_.y = params.wallHeight ∧
        m.start.x = (minX + maxX)/2 ∧ m.end_.x = maxX + roof.overhang ∧
        m.end_.z = m.start.z) := by
  intro m hm htype
  unfold gableBayZ at hm
  dsimp only at hm
  rcases List.mem_append.mp hm with h | h
  · simp only [List.mem_cons, List.not_mem_nil, or_false] at h
    rcases h with h | h | h
    · subst h
      left
      refine ⟨rfl, ?_, ?_, ?_, rfl⟩ <;> simp [qadd_eq, qsub_eq, qmul_eq, qdiv_eq]
    · subst h
      right
      refine ⟨?_, rfl, ?_, ?_, rfl⟩ <;> simp [qadd_eq, qsub_eq, qmul_eq, qdiv_eq]
    · subst h
      exact absurd htype (by simp)
  · split at h
    · rw [List.mem_singleton] at h
      subst h
      exact absurd htype (by simp)
    · exact absurd h (List.not_mem_nil m)

theorem gableBayZ_collar_geom (params : FrameParams) (roof : RoofConfig)
    (tanPitch minX maxX minZ rstep : ℚ) (i : Nat) :
    ∀ m ∈ gableBayZ params roof tanPitch minX maxX minZ rstep i,
      m.type = MemberType.collar_tie →
      (m.start.y = params.wallHeight + tanPitch * ((maxX - minX)/2) * (3/5) ∧
        m.end_.y = m.start.y ∧
        m.start.x = (minX + maxX)/2 - ((maxX - minX)/2) * (2/5) ∧
        m.end_.x = (minX + maxX)/2 + ((maxX - minX)/2) * (2/5) ∧
        m.end_.z = m.start.z) := by
  intro m hm htype
  unfold gableBayZ at hm
  dsimp only at hm
  rcases List.mem_append.mp hm with h | h
  · simp only [List.mem_cons, List.not_mem_nil, or_false] at h
    rcases h with h | h | h <;> (subst h; exact absurd htype (by simp))
  · split at h
    · rw [List.mem_singleton] at h
      subst h
      refine ⟨?_, rfl, ?_, ?_, rfl⟩ <;>
        (simp only [qadd_eq, qsub_eq, qmul_eq, qdiv_eq, mkRat_cast_eq_div] ; push_cast ; ring_nf)
    · exact absurd h (List.not_mem_nil m)

theorem gableBayZ_types (params : FrameParams) (roof : RoofConfig)
    (tanPitch minX maxX minZ rstep : ℚ) (i : Nat) :
    ∀ m ∈ gableBayZ params roof tanPitch minX maxX minZ rstep i,
      m.type = MemberType.rafter ∨ m.type = MemberType.ceiling_joist ∨
      m.type = MemberType.collar_tie := by
  intro m hm
  unfold gableBayZ at hm
  dsimp only at hm
  rcases List.mem_append.mp hm with h | h
  · simp only [List.mem_cons, List.not_mem_nil, or_false] at h
    rcases h with h | h | h <;> (subst h; simp)
  · split at h
    · rw [List.mem_singleton] at h
      subst h
      simp
    · exact absurd h (List.not_mem_nil m)

theorem gableBayZ_rafter_zs (params : FrameParams) (roof : RoofConfig)
    (tanPitch minX maxX minZ rstep : ℚ) (i : Nat) :
    ((gableBayZ params roof tanPitch minX maxX minZ rstep i).filter
      (fun m => m.type == MemberType.rafter)).map (fun m => m.start.z)
      = [minZ + (i : ℚ) * rstep, minZ + (i : ℚ) * rstep] := by
  unfold gableBayZ
  dsimp only
  split <;> simp [List.filter_cons, List.filter_append, beq_iff_eq, qadd_eq, qmul_eq]

theorem gableRoofZ_ridge (params : FrameParams) (roof : RoofConfig)
    (tanPitch minX maxX minZ maxZ : ℚ) :
    (gableRoofZ params roof tanPitch minX maxX minZ maxZ).filter
        (fun m => m.type == MemberType.ridge_beam) =
      [{ start := { x := (minX + maxX)/2
                    y := params.wallHeight + tanPitch * ((maxX - minX)/2)
                    z := minZ - roof.overhang }
         end_ := { x := (minX + maxX)/2
                   y := params.wallHeight + tanPitch * ((maxX - minX)/2)
                   z := maxZ + roof.overhang }
         width := roof.rafterWidth * (3/2), depth := roof.rafterDepth * (6/5)
         type := MemberType.ridge_beam, wallId := "" }] := by
  unfold gableRoofZ
  dsimp only
  have hb := filter_foldrAppend_eq_nil
    (fun i => gableBayZ params roof tanPitch minX maxX minZ
      (qdiv (qsub maxZ minZ) ((spacingCount (qsub maxZ minZ) params.studSpacing : ℤ) : ℚ)) i)
    (fun m => m.type == MemberType.ridge_beam)
    (List.range ((spacingCount (qsub maxZ minZ) params.studSpacing).toNat + 1))
    (fun i _ m hm => by
      rcases gableBayZ_types params roof tanPitch minX maxX minZ _ i m hm with h | h | h <;>
        simp [h])
  simp [List.filter_cons, List.filter_append, hb, beq_iff_eq,
    qadd_eq, qsub_eq, qmul_eq, qdiv_eq, mkRat_cast_eq_div]
  intro a ha
  rcases (mem_foldrAppend _ _ a).mp ha with ⟨i, _, hbay⟩
  rcases gableBayZ_types params roof tanPitch minX maxX minZ _ i a hbay with h | h | h <;>
    simp [h]

theorem gableRoofZ_rafter_count (params : FrameParams) (roof : RoofConfig)
    (tanPitch minX maxX minZ maxZ : ℚ) :
    ((gableRoofZ params roof tanPitch minX maxX minZ maxZ).filter
        (fun m => m.type == MemberType.rafter)).length =
      2 * ((spacingCount (maxZ - minZ) params.studSpacing).toNat + 1) := by
  unfold gableRoofZ
  dsimp only
  have hb : (((List.range ((spacingCount (qsub maxZ minZ) params.studSpacing).toNat + 1)).foldr
      (fun i acc => gableBayZ params roof tanPitch minX maxX minZ
        (qdiv (qsub maxZ minZ) ((spacingCount (qsub maxZ minZ) params.studSpacing : ℤ) : ℚ)) i
        ++ acc) []).filter (fun m => m.type == MemberType.rafter)).length =
      2 * ((spacingCount (maxZ - minZ) params.studSpacing).toNat + 1) := by
    rw [foldrAppend_filter, foldrAppend_length_const _ _ 2 (fun i _ =>
      gableBayZ_filter_rafter params roof tanPitch minX maxX minZ _ i), qsub_eq]
    simp [Nat.mul_comm]
  simp only [qsub_eq, qdiv_eq] at hb
  simp [List.filter_cons, List.filter_append, hb, beq_iff_eq, qsub_eq, qdiv_eq]

theorem gableRoofZ_collar_count (params : FrameParams) (roof : RoofConfig)
    (tanPitch minX maxX minZ maxZ : ℚ) :
    ((gableRoofZ params roof tanPitch minX maxX minZ maxZ).filter
        (fun m => m.type == MemberType.collar_tie)).length =
      (if 1 < (maxX - minX)/2 then
        (spacingCount (maxZ - minZ) params.studSpacing).toNat + 1 else 0) := by
  unfold gableRoofZ
  dsimp only
  by_cases hc : 1 < (maxX - minX)/2
  · have hq : qdiv (qsub maxX minX) 2 > 1 := by
      rw [qdiv_eq, qsub_eq]
      exact hc
    have hb : (((List.range ((spacingCount (qsub maxZ minZ) params.studSpacing).toNat + 1)).foldr
        (fun i acc => gableBayZ params roof tanPitch minX maxX minZ
          (qdiv (qsub maxZ minZ) ((spacingCount (qsub maxZ minZ) params.studSpacing : ℤ) : ℚ)) i
          ++ acc) []).filter (fun m => m.type == MemberType.collar_tie)).length =
        (spacingCount (maxZ - minZ) params.studSpacing).toNat + 1 := by
      rw [foldrAppend_filter, foldrAppend_length_const _ _ 1 (fun i _ => by
        rw [gableBayZ_filter_collar params roof tanPitch minX maxX minZ _ i, if_pos hq]), qsub_eq]
      simp
    rw [if_pos hc]
    simp only [qsub_eq, qdiv_eq] at hb
    simp [List.filter_cons, List.filter_append, hb, beq_iff_eq, qsub_eq, qdiv_eq]
  · have hq : ¬ qdiv (qsub maxX minX) 2 > 1 := by
      rw [qdiv_eq, qsub_eq]
      exact hc
    have hb : (((List.range ((spacingCount (qsub maxZ minZ) params.studSpacing).toNat + 1)).foldr
        (fun i acc => gableBayZ params roof tanPitch minX maxX minZ
          (qdiv (qsub maxZ minZ) ((spacingCount (qsub maxZ minZ) params.studSpacing : ℤ) : ℚ)) i
          ++ acc) []).filter (fun m => m.type == MemberType.collar_tie)).length = 0 := by
      rw [foldrAppend_filter, foldrAppend_length_const _ _ 0 (fun i _ => by
        rw [gableBayZ_filter_collar params roof tanPitch minX maxX minZ _ i, if_neg hq])]
      simp
    rw [if_neg hc]
    simp only [qsub_eq, qdiv_eq] at hb
    simp [List.filter_cons, List.filter_append, hb, beq_iff_eq, qsub_eq, qdiv_eq]

theorem gableRoofZ_rafter_geom (params : FrameParams) (roof : RoofConfig)
    (tanPitch minX maxX minZ maxZ : ℚ) :
    ∀ m ∈ gableRoofZ params roof tanPitch minX maxX minZ maxZ,
      m.type = MemberType.rafter →
      (m.start.y = params.wallHeight ∧
        m.end_.y = params.wallHeight + tanPitch * ((maxX - minX)/2) ∧
        m.start.x = minX - roof.overhang ∧ m.end_.x = (minX + maxX)/2 ∧
        m.end_.z = m.start.z) ∨
      (m.start.y = params.wallHeight + tanPitch * ((maxX - minX)/2) ∧
        m.end_.y = params.wallHeight ∧
        m.start.x = (minX + maxX)/2 ∧ m.end_.x = maxX + roof.overhang ∧
        m.end_.z = m.start.z) := by
  intro m hm htype
  unfold gableRoofZ at hm
  dsimp only at hm
  rcases List.mem_cons.mp hm with h | h
  · subst h
    exact absurd htype (by simp)
  rcases List.mem_append.mp h with h2 | h2
  · rcases (mem_foldrAppend _ _ m).mp h2 with ⟨i, _, hbay⟩
    exact gableBayZ_rafter_geom params roof tanPitch minX maxX minZ _ i m hbay htype
  · simp only [List.mem_cons, List.not_mem_nil, or_false] at h2
    rcases h2 with h2 | h2 <;> (subst h2; exact absurd htype (by simp))

theorem gableRoofZ_collar_geom (params : FrameParams) (roof : RoofConfig)
    (tanPitch minX maxX minZ maxZ : ℚ) :
    ∀ m ∈ gableRoofZ params roof tanPitch minX maxX minZ maxZ,
      m.type = MemberType.collar_tie →
      (m.start.y = params.wallHeight + tanPitch * ((maxX - minX)/2) * (3/5) ∧
        m.end_.y = m.start.y ∧
        m.start.x = (minX + maxX)/2 - ((maxX - minX)/2) * (2/5) ∧
        m.end_.x = (minX + maxX)/2 + ((maxX - minX)/2) * (2/5) ∧
        m.end_.z = m.start.z) := by
  intro m hm htype
  unfold gableRoofZ at hm
  dsimp only at hm
  rcases List.mem_cons.mp hm with h | h
  · subst h
    exact absurd htype (by simp)
  rcases List.mem_append.mp h with h2 | h2
  · rcases (mem_foldrAppend _ _ m).mp h2 with ⟨i, _, hbay⟩
    exact gableBayZ_collar_geom params roof tanPitch minX maxX minZ _ i m hbay htype
  · simp only [List.mem_cons, List.not_mem_nil, or_false] at h2
    rcases h2 with h2 | h2 <;> (subst h2; exact absurd htype (by simp))

theorem gableRoofZ_rafter_zs (params : FrameParams) (roof : RoofConfig)
    (tanPitch minX maxX minZ maxZ : ℚ) :
    ((gableRoofZ params roof tanPitch minX maxX minZ maxZ).filter
        (fun m => m.type == MemberType.rafter)).map (fun m => m.start.z)
      = (List.range ((spacingCount (maxZ - minZ) params.studSpacing).toNat + 1)).foldr
          (fun (i : ℕ) acc =>
            (minZ + (i : ℚ) * ((maxZ - minZ) /
              ((spacingCount (maxZ - minZ) params.studSpacing : ℤ) : ℚ))) ::
            (minZ + (i : ℚ) * ((maxZ - minZ) /
              ((spacingCount (maxZ - minZ) params.studSpacing : ℤ) : ℚ))) :: acc) [] := by
  unfold gableRoofZ
  dsimp only
  have hb : (((List.range ((spacingCount (qsub maxZ minZ) params.studSpacing).toNat + 1)).foldr
      (fun i acc => gableBayZ params roof tanPitch minX maxX minZ
        (qdiv (qsub maxZ minZ) ((spacingCount (qsub maxZ minZ) params.studSpacing : ℤ) : ℚ)) i
        ++ acc) []).filter (fun m => m.type == MemberType.rafter)).map (fun m => m.start.z)
      = (List.range ((spacingCount (qsub maxZ minZ) params.studSpacing).toNat + 1)).foldr
          (fun (i : ℕ) acc =>
            (minZ + (i : ℚ) * (qdiv (qsub maxZ minZ)
              ((spacingCount (qsub maxZ minZ) params.studSpacing : ℤ) : ℚ))) ::
            (minZ + (i : ℚ) * (qdiv (qsub maxZ minZ)
              ((spacingCount (qsub maxZ minZ) params.studSpacing : ℤ) : ℚ))) :: acc) [] := by
    rw [foldrAppend_filter, foldrAppend_map,
      foldrAppend_congr _ _ _ (fun i _ => gableBayZ_rafter_zs params roof tanPitch
        minX maxX minZ _ i)]
    rfl
  simp only [qsub_eq, qdiv_eq] at hb
  simp [List.filter_cons, List.filter_append, List.map_append, hb, beq_iff_eq,
    qsub_eq, qdiv_eq]


/-- Claim **C6** (amended): for a gable roof over a nonempty exterior wall
set, on either ridge axis, the ridge beam sits at
`wallHeight + tanPitch · (perpendicular span)/2` over the midline; the roof
places `max(1, round(alongSpan/studSpacing)) + 1` rafter pairs (one more
than the claim's count — the placement loop is inclusive at both ends) at
evenly spaced along-ridge positions `min + i · alongSpan/rafterCount`, each
pair rising from `wallHeight` at an eave offset outward by `overhang` to
`ridgeHeight` at the ridge line in a plane of constant along-ridge
coordinate; and exactly when the perpendicular half-span exceeds 1 m, one
collar tie per rafter pair at 60% of the rise with the horizontal
half-span reduced to 40%. -/
theorem c6_gable_roof_amended (walls : List Wall) (params : FrameParams) (roof : RoofConfig)
    (tanPitch : ℚ) (w0 : Wall) (rest : List Wall)
    (hroof : params.roof = some roof) (hg : roof.type = RoofType.gable)
    (hext : extWallsOf walls = w0 :: rest) :
    (roof.ridgeAxis = RidgeAxis.x →
      ((generateRoof walls params tanPitch).filter
          (fun m => m.type == MemberType.ridge_beam) =
        [{ start := { x := boundsMinX (extWallsOf walls) - roof.overhang
                      y := params.wallHeight + tanPitch * ((boundsMaxZ (extWallsOf walls) - boundsMinZ (extWallsOf walls))/2)
                      z := (boundsMinZ (extWallsOf walls) + boundsMaxZ (extWallsOf walls))/2 }
           end_ := { x := boundsMaxX (extWallsOf walls) + roof.overhang
                     y := params.wallHeight + tanPitch * ((boundsMaxZ (extWallsOf walls) - boundsMinZ (extWallsOf walls))/2)
                     z := (boundsMinZ (extWallsOf walls) + boundsMaxZ (extWallsOf walls))/2 }
           width := roof.rafterWidth * (3/2), depth := roof.rafterDepth * (6/5)
           type := MemberType.ridge_beam, wallId := "" }] ∧
      ((generateRoof walls params tanPitch).filter
          (fun m => m.type == MemberType.rafter)).length =
        2 * ((spacingCount (boundsMaxX (extWallsOf walls) - boundsMinX (extWallsOf walls)) params.studSpacing).toNat + 1) ∧
      ((generateRoof walls params tanPitch).filter
          (fun m => m.type == MemberType.collar_tie)).length =
        (if 1 < (boundsMaxZ (extWallsOf walls) - boundsMinZ (extWallsOf walls))/2 then (spacingCount (boundsMaxX (extWallsOf walls) - boundsMinX (extWallsOf walls)) params.studSpacing).toNat + 1 else 0) ∧
      (∀ m ∈ generateRoof walls params tanPitch, m.type = MemberType.rafter →
        (m.start.y = params.wallHeight ∧
          m.end_.y = params.wallHeight + tanPitch * ((boundsMaxZ (extWallsOf walls) - boundsMinZ (extWallsOf walls))/2) ∧
          m.start.z = boundsMinZ (extWallsOf walls) - roof.overhang ∧
          m.end_.z = (boundsMinZ (extWallsOf walls) + boundsMaxZ (extWallsOf walls))/2 ∧ m.end_.x = m.start.x) ∨
        (m.start.y = params.wallHeight + tanPitch * ((boundsMaxZ (extWallsOf walls) - boundsMinZ (extWallsOf walls))/2) ∧
          m.end_.y = params.wallHeight ∧
          m.start.z = (boundsMinZ (extWallsOf walls) + boundsMaxZ (extWallsOf walls))/2 ∧
          m.end_.z = boundsMaxZ (extWallsOf walls) + roof.overhang ∧ m.end_.x = m.start.x)) ∧
      (∀ m ∈ generateRoof walls params tanPitch, m.type = MemberType.collar_tie →
        (m.start.y = params.wallHeight + tanPitch * ((boundsMaxZ (extWallsOf walls) - boundsMinZ (extWallsOf walls))/2) * (3/5) ∧
          m.end_.y = m.start.y ∧
          m.start.z = (boundsMinZ (extWallsOf walls) + boundsMaxZ (extWallsOf walls))/2 - ((boundsMaxZ (extWallsOf walls) - boundsMinZ (extWallsOf walls))/2) * (2/5) ∧
          m.end_.z = (boundsMinZ (extWallsOf walls) + boundsMaxZ (extWallsOf walls))/2 + ((boundsMaxZ (extWallsOf walls) - boundsMinZ (extWallsOf walls))/2) * (2/5) ∧
          m.end_.x = m.start.x)) ∧
      ((generateRoof walls params tanPitch).filter
          (fun m => m.type == MemberType.rafter)).map (fun m => m.start.x)
        = (List.range ((spacingCount (boundsMaxX (extWallsOf walls) - boundsMinX (extWallsOf walls)) params.studSpacing).toNat + 1)).foldr
            (fun (i : ℕ) acc => (boundsMinX (extWallsOf walls) + (i : ℚ) * ((boundsMaxX (extWallsOf walls) - boundsMinX (extWallsOf walls)) / ((spacingCount (boundsMaxX (extWallsOf walls) - boundsMinX (extWallsOf walls)) params.studSpacing : ℤ) : ℚ))) ::
              (boundsMinX (extWallsOf walls) + (i : ℚ) * ((boundsMaxX (extWallsOf walls) - boundsMinX (extWallsOf walls)) / ((spacingCount (boundsMaxX (extWallsOf walls) - boundsMinX (extWallsOf walls)) params.studSpacing : ℤ) : ℚ))) :: acc) [])) ∧
    (roof.ridgeAxis = RidgeAxis.z →
      ((generateRoof walls params tanPitch).filter
          (fun m => m.type == MemberType.ridge_beam) =
        [{ start := { x := (boundsMinX (extWallsOf walls) + boundsMaxX (extWallsOf walls))/2
                      y := params.wallHeight + tanPitch * ((boundsMaxX (extWallsOf walls) - boundsMinX (extWallsOf walls))/2)
                      z := boundsMinZ (extWallsOf walls) - roof.overhang }
           end_ := { x := (boundsMinX (extWallsOf walls) + boundsMaxX (extWallsOf walls))/2
                     y := params.wallHeight + tanPitch * ((boundsMaxX (extWallsOf walls) - boundsMinX (extWallsOf walls))/2)
                     z := boundsMaxZ (extWallsOf walls) + roof.overhang }
           width := roof.rafterWidth * (3/2), depth := roof.rafterDepth * (6/5)
           type := MemberType.ridge_beam, wallId := "" }] ∧
      ((generateRoof walls params tanPitch).filter
          (fun m => m.type == MemberType.rafter)).length =
        2 * ((spacingCount (boundsMaxZ (extWallsOf walls) - boundsMinZ (extWallsOf walls)) params.studSpacing).toNat + 1) ∧
      ((generateRoof walls params tanPitch).filter
          (fun m => m.type == MemberType.collar_tie)).length =
        (if 1 < (boundsMaxX (extWallsOf walls) - boundsMinX (extWallsOf walls))/2 then (spacingCount (boundsMaxZ (extWallsOf walls) - boundsMinZ (extWallsOf walls)) params.studSpacing).toNat + 1 else 0) ∧
      (∀ m ∈ generateRoof walls params tanPitch, m.type = MemberType.rafter →
        (m.start.y = params.wallHeight ∧
          m.end_.y = params.wallHeight + tanPitch * ((boundsMaxX (extWallsOf walls) - boundsMinX (extWallsOf walls))/2) ∧
          m.start.x = boundsMinX (extWallsOf walls) - roof.overhang ∧
          m.end_.x = (boundsMinX (extWallsOf walls) + boundsMaxX (extWallsOf walls))/2 ∧ m.end_.z = m.start.z) ∨
        (m.start.y = params.wallHeight + tanPitch * ((boundsMaxX (extWallsOf walls) - boundsMinX (extWallsOf walls))/2) ∧
          m.end_.y = params.wallHeight ∧
          m.start.x = (boundsMinX (extWallsOf walls) + boundsMaxX (extWallsOf walls))/2 ∧
          m.end_.x = boundsMaxX (extWallsOf walls) + roof.overhang ∧ m.end_.z = m.start.z)) ∧
      (∀ m ∈ generateRoof walls params tanPitch, m.type = MemberType.collar_tie →
        (m.start.y = params.wallHeight + tanPitch * ((boundsMaxX (extWallsOf walls) - boundsMinX (extWallsOf walls))/2) * (3/5) ∧
          m.end_.y = m.start.y ∧
          m.start.x = (boundsMinX (extWallsOf walls) + boundsMaxX (extWallsOf walls))/2 - ((boundsMaxX (extWallsOf walls) - boundsMinX (extWallsOf walls))/2) * (2/5) ∧
          m.end_.x = (boundsMinX (extWallsOf walls) + boundsMaxX (extWallsOf walls))/2 + ((boundsMaxX (extWallsOf walls) - boundsMinX (extWallsOf walls))/2) * (2/5) ∧
          m.end_.z = m.start.z)) ∧
      ((generateRoof walls params tanPitch).filter
          (fun m => m.type == MemberType.rafter)).map (fun m => m.start.z)
        = (List.range ((spacingCount (boundsMaxZ (extWallsOf walls) - boundsMinZ (extWallsOf walls)) params.studSpacing).toNat + 1)).foldr
            (fun (i : ℕ) acc => (boundsMinZ (extWallsOf walls) + (i : ℚ) * ((boundsMaxZ (extWallsOf walls) - boundsMinZ (extWallsOf walls)) / ((spacingCount (boundsMaxZ (extWallsOf walls) - boundsMinZ (extWallsOf walls)) params.studSpacing : ℤ) : ℚ))) ::
              (boundsMinZ (extWallsOf walls) + (i : ℚ) * ((boundsMaxZ (extWallsOf walls) - boundsMinZ (extWallsOf walls)) / ((spacingCount (boundsMaxZ (extWallsOf walls) - boundsMinZ (extWallsOf walls)) params.studSpacing : ℤ) : ℚ))) :: acc) [])) := by
  constructor
  · intro hax
    have hred : generateRoof walls params tanPitch =
        gableRoofX params roof tanPitch (boundsMinX (extWallsOf walls))
          (boundsMaxX (extWallsOf walls)) (boundsMinZ (extWallsOf walls))
          (boundsMaxZ (extWallsOf walls)) := by
      rw [generateRoof, hroof]
      dsimp only
      rw [hext]
      dsimp only
      rw [hg]
      rw [if_neg (by decide : ¬ (RoofType.gable = RoofType.flat))]
      rw [hax, if_pos rfl]
    rw [hred]
    exact ⟨gableRoofX_ridge params roof tanPitch _ _ _ _,
      gableRoofX_rafter_count params roof tanPitch _ _ _ _,
      gableRoofX_collar_count params roof tanPitch _ _ _ _,
      gableRoofX_rafter_geom params roof tanPitch _ _ _ _,
      gableRoofX_collar_geom params roof tanPitch _ _ _ _,
      gableRoofX_rafter_xs params roof tanPitch _ _ _ _⟩
  · intro haz
    have hred : generateRoof walls params tanPitch =
        gableRoofZ params roof tanPitch (boundsMinX (extWallsOf walls))
          (boundsMaxX (extWallsOf walls)) (boundsMinZ (extWallsOf walls))
          (boundsMaxZ (extWallsOf walls)) := by
      rw [generateRoof, hroof]
      dsimp only
      rw [hext]
      dsimp only
      rw [hg]
      rw [if_neg (by decide : ¬ (RoofType.gable = RoofType.flat))]
      rw [haz]
      rw [if_neg (by decide : ¬ (RidgeAxis.z = RidgeAxis.x))]
    rw [hred]
    exact ⟨gableRoofZ_ridge params roof tanPitch _ _ _ _,
      gableRoofZ_rafter_count params roof tanPitch _ _ _ _,
      gableRoofZ_collar_count params roof tanPitch _ _ _ _,
      gableRoofZ_rafter_geom params roof tanPitch _ _ _ _,
      gableRoofZ_collar_geom params roof tanPitch _ _ _ _,
      gableRoofZ_rafter_zs params roof tanPitch _ _ _ _⟩

/-- Witness for the amended C6 theorem at the 4 × 4 gable scenario, on both
ridge axes: 16 rafters, i.e. 8 = max(1, round(4/0.6)) + 1 pairs each. -/
theorem c6_gable_roof_amended_witness :
    (((generateRoof c6Walls c6Params 1).filter
        (fun m => m.type == MemberType.rafter)).length =
      2 * ((spacingCount (boundsMaxX (extWallsOf c6Walls) - boundsMinX (extWallsOf c6Walls))
        c6Params.studSpacing).toNat + 1)) ∧
    (((generateRoof c6Walls c6ParamsZ 1).filter
        (fun m => m.type == MemberType.rafter)).length =
      2 * ((spacingCount (boundsMaxZ (extWallsOf c6Walls) - boundsMinZ (extWallsOf c6Walls))
        c6ParamsZ.studSpacing).toNat + 1)) :=
  ⟨((c6_gable_roof_amended c6Walls c6Params c6Roof 1
      (mkExtWall "r1" 0 0 4 0)
      [mkExtWall "r2" 4 0 4 4, mkExtWall "r3" 4 4 0 4, mkExtWall "r4" 0 4 0 0]
      rfl rfl (by decide)).1 rfl).2.1,
   ((c6_gable_roof_amended c6Walls c6ParamsZ c6RoofZ 1
      (mkExtWall "r1" 0 0 4 0)
      [mkExtWall "r2" 4 0 4 4, mkExtWall "r3" 4 4 0 4, mkExtWall "r4" 0 4 0 0]
      rfl rfl (by decide)).2 rfl).2.1⟩

/-- Claim **C6** counterexample: on the 4 m × 4 m footprint with spacing 0.6 the
claimed rafter-pair count is `max(1, round(4/0.6)) = 7`, but the roof
emits 16 rafters = 8 pairs (the placement loop runs from 0 to the count
inclusive). -/
theorem c6_cex_rafter_pairs :
    spacingCount 4 (mkRat 3 5) = 7 ∧
    (c6Members.filter (fun m => m.type == MemberType.rafter)).length = 16 ∧
    (16 : ℕ) ≠ 2 * 7 := by
  exact ⟨by decide, by decide, by decide⟩

/-!
## C5: tee-junction partition backers
-/

/-- Claim **C5** (amended): at a tee junction every emitted member is a
full-height partition backer (cavity floor to top-plate underside), and for
every through-wall × butting-wall pair and each side s ∈ {−1, +1} the
backer at offset `s · 0.75 · effectiveDepth` along the through wall is
emitted — PROVIDED that offset position lies within (EPS, length − EPS) of
the through wall (an offset landing outside that range is skipped, so such
a pair can get fewer than two backers) and the stud height is positive. -/
theorem c5_tee_backers_amended :
    (∀ (junc : Junction) (walls : List Wall) (wallDirs : List (String × WallDir))
        (params : FrameParams),
      junc.type = JunctionType.tee →
      ∀ m ∈ junctionMembersFor junc walls wallDirs params,
        m.type = MemberType.partition_backer ∧
        m.start.y = params.studWidth ∧
        m.end_.y = params.wallHeight - params.studWidth * 2) ∧
    (∀ (junc : Junction) (walls : List Wall) (wallDirs : List (String × WallDir))
        (params : FrameParams) (twId : String) (tw : Wall) (td : WallDir) (bwId : String)
        (side : ℚ),
      junc.type = JunctionType.tee →
      twId ∈ throughIdsOf junc walls →
      walls.find? (fun w => w.id == twId) = some tw →
      wdGet wallDirs twId = some td →
      bwId ∈ buttingIdsOf junc walls →
      (side = -1 ∨ side = 1) →
      ¬ (projectPointOntoWallT junc.point tw td +
            side * (effectiveDepth params tw * (3/4)) < EPS ∨
          projectPointOntoWallT junc.point tw td +
            side * (effectiveDepth params tw * (3/4)) > td.length - EPS) →
      params.wallHeight - params.studWidth * 2 > params.studWidth + EPS →
      teeBackerAt tw td twId params
          (projectPointOntoWallT junc.point tw td +
            side * (effectiveDepth params tw * (3/4))) ∈
        junctionMembersFor junc walls wallDirs params) := by
  constructor
  · intro junc walls wallDirs params htee m hm
    unfold junctionMembersFor at hm
    rw [if_neg (by simp [htee])] at hm
    rcases (mem_foldrAppend _ _ m).mp hm with ⟨twId, _, hm1⟩
    split at hm1
    case _ tw td hfind hget =>
      rcases (mem_foldrAppend _ _ m).mp hm1 with ⟨bwId, _, hm2⟩
      rcases (mem_foldrAppend _ _ m).mp hm2 with ⟨side, _, hm3⟩
      dsimp only at hm3
      split at hm3
      · exact absurd hm3 (List.not_mem_nil m)
      · split at hm3
        · rw [List.mem_singleton] at hm3
          subst hm3
          refine ⟨rfl, rfl, ?_⟩
          simp [teeBackerAt, qsub_eq, qmul_eq]
        · exact absurd hm3 (List.not_mem_nil m)
    case _ =>
      exact absurd hm1 (List.not_mem_nil m)
  · intro junc walls wallDirs params twId tw td bwId side htee htw hfind hget hbw hside
      hrange hheight
    have hbt : qadd (projectPointOntoWallT junc.point tw td)
        (qmul side (qmul (effectiveDepth params tw) (mkRat 3 4))) =
        projectPointOntoWallT junc.point tw td +
          side * (effectiveDepth params tw * (3/4)) := by
      rw [qadd_eq, qmul_eq, qmul_eq, mkRat_cast_eq_div]
      norm_num
    have hrange2 : ¬ (qadd (projectPointOntoWallT junc.point tw td)
        (qmul side (qmul (effectiveDepth params tw) (mkRat 3 4))) < EPS ∨
        qadd (projectPointOntoWallT junc.point tw td)
          (qmul side (qmul (effectiveDepth params tw) (mkRat 3 4))) > qsub td.length EPS) := by
      rw [hbt, qsub_eq]
      exact hrange
    have hheight2 : qsub params.wallHeight (qmul params.studWidth 2) >
        qadd params.studWidth EPS := by
      rw [qsub_eq, qmul_eq, qadd_eq]
      exact hheight
    unfold junctionMembersFor
    rw [if_neg (by simp [htee])]
    refine (mem_foldrAppend _ _ _).mpr ⟨twId, htw, ?_⟩
    rw [hfind, hget]
    refine (mem_foldrAppend _ _ _).mpr ⟨bwId, hbw, ?_⟩
    refine (mem_foldrAppend _ _ _).mpr ⟨side, by rcases hside with h | h <;> simp [h], ?_⟩
    dsimp only
    rw [if_neg hrange2, if_pos hheight2, hbt]
    exact List.mem_singleton.mpr rfl

/-- Witness for the amended C5 theorem: in the concrete tee configuration
the +1-side backer (at 0.02 + 0.75·0.095 along the through wall) is a
member of the junction framing. -/
theorem c5_tee_backers_amended_witness :
    teeBackerAt
        { id := "t1", start := { x := 0, z := 0 }, end_ := { x := 1, z := 0 },
          wallType := WallType.interior }
        (computeWallDir
          { id := "t1", start := { x := 0, z := 0 }, end_ := { x := 1, z := 0 },
            wallType := WallType.interior } 1)
        "t1" scParams
        (projectPointOntoWallT { x := mkRat 1 50, z := 0 }
            { id := "t1", start := { x := 0, z := 0 }, end_ := { x := 1, z := 0 },
              wallType := WallType.interior }
            (computeWallDir
              { id := "t1", start := { x := 0, z := 0 }, end_ := { x := 1, z := 0 },
                wallType := WallType.interior } 1) +
          1 * (effectiveDepth scParams
            { id := "t1", start := { x := 0, z := 0 }, end_ := { x := 1, z := 0 },
              wallType := WallType.interior } * (3/4))) ∈
      junctionMembersFor
        { point := { x := mkRat 1 50, z := 0 }, wallIds := ["t2", "t1"],
          type := JunctionType.tee }
        teeWalls (wallDirsOf teeWalls (fun _ => 1)) scParams := by
  refine c5_tee_backers_amended.2
    { point := { x := mkRat 1 50, z := 0 }, wallIds := ["t2", "t1"],
      type := JunctionType.tee }
    teeWalls (wallDirsOf teeWalls (fun _ => 1)) scParams "t1" _ _ "t2" 1
    rfl (by decide) (by decide) (by decide) (by decide) (Or.inr rfl) ?_ ?_
  · have h1 : projectPointOntoWallT { x := mkRat 1 50, z := 0 }
        { id := "t1", start := { x := 0, z := 0 }, end_ := { x := 1, z := 0 },
          wallType := WallType.interior }
        (computeWallDir
          { id := "t1", start := { x := 0, z := 0 }, end_ := { x := 1, z := 0 },
            wallType := WallType.interior } 1) = mkRat 1 50 := by decide
    rw [h1]
    have h2 : effectiveDepth scParams
        { id := "t1", start := { x := 0, z := 0 }, end_ := { x := 1, z := 0 },
          wallType := WallType.interior } = mkRat 19 200 := by decide
    rw [h2]
    have h3 : (computeWallDir
        { id := "t1", start := { x := 0, z := 0 }, end_ := { x := 1, z := 0 },
          wallType := WallType.interior } 1).length = 1 := by decide
    rw [h3]
    rw [show EPS = 1/200 from EPS_eq]
    rw [show (mkRat 1 50 : ℚ) = 1/50 from by rw [mkRat_cast_eq_div]; norm_num]
    rw [show (mkRat 19 200 : ℚ) = 19/200 from by rw [mkRat_cast_eq_div]; norm_num]
    norm_num
  · rw [show scParams.wallHeight = mkRat 12 5 from rfl,
      show scParams.studWidth = mkRat 9 200 from rfl]
    rw [show (mkRat 12 5 : ℚ) = 12/5 from by rw [mkRat_cast_eq_div]; norm_num,
      show (mkRat 9 200 : ℚ) = 9/200 from by rw [mkRat_cast_eq_div]; norm_num,
      show EPS = 1/200 from EPS_eq]
    norm_num

/-- Claim **C5** counterexample: the concrete tee configuration has one tee
junction with one through×butting pair, but only ONE partition backer is
emitted (the −0.75·depth offset lands before the through wall's start and
is skipped), refuting "emits two ... studs straddling the junction point"
for every pair. -/
theorem c5_cex_single_backer :
    ((detectJunctions teeWalls).filter (fun j => j.type == JunctionType.tee)).length = 1 ∧
    (∀ j ∈ detectJunctions teeWalls, j.type = JunctionType.tee →
      (throughIdsOf j teeWalls).length = 1 ∧ (buttingIdsOf j teeWalls).length = 1) ∧
    (teeFrame.members.filter (fun m => m.type == MemberType.partition_backer)).length = 1 := by
  exact ⟨by decide, by decide, by decide⟩

/-!
## C4: junction detection, classification, corner framing
-/

theorem entryIsTee_iff (walls : List Wall) (e : PMEntry) :
    entryIsTee walls e = true ↔
      ∃ wid ∈ e.wallIds, ∃ w, walls.find? (fun ww => ww.id == wid) = some w ∧
        isPointOnSegmentInterior e.point w.start w.end_ = true := by
  unfold entryIsTee
  rw [List.any_eq_true]
  constructor
  · rintro ⟨wid, hwid, hb⟩
    rcases hfind : walls.find? (fun ww => ww.id == wid) with _ | w
    · rw [hfind] at hb
      exact absurd hb (by simp)
    · rw [hfind] at hb
      exact ⟨wid, hwid, w, hfind, hb⟩
  · rintro ⟨wid, hwid, w, hfind, hint⟩
    refine ⟨wid, hwid, ?_⟩
    rw [hfind]
    exact hint

/-- Claim **C4**: every junction groups ≥ 2 walls at a quantised point and is
classified tee exactly when the point lies interior to the span of some
associated wall (corner otherwise); at a corner junction every member is a
full-height corner stud, one per resolvable participating wall, offset
from the junction point along that wall's normal by its effective depth.
Scenario B: 4 corner junctions, 8 corner studs, 0 partition backers. -/
theorem c4_junctions_and_corners :
    (∀ (walls : List Wall), ∀ j ∈ detectJunctions walls,
      2 ≤ j.wallIds.length ∧
      (j.type = JunctionType.tee ↔
        ∃ wid ∈ j.wallIds, ∃ w, walls.find? (fun ww => ww.id == wid) = some w ∧
          isPointOnSegmentInterior j.point w.start w.end_ = true)) ∧
    (∀ (junc : Junction) (walls : List Wall) (wallDirs : List (String × WallDir))
        (params : FrameParams),
      junc.type = JunctionType.corner →
      ∀ m ∈ junctionMembersFor junc walls wallDirs params,
        m.type = MemberType.corner_stud ∧
        m.start.y = params.studWidth ∧
        m.end_.y = params.wallHeight - params.studWidth * 2) ∧
    (∀ (junc : Junction) (walls : List Wall) (wallDirs : List (String × WallDir))
        (params : FrameParams) (w : Wall) (d : WallDir),
      junc.type = JunctionType.corner →
      w ∈ junc.wallIds.filterMap (fun wid => walls.find? (fun ww => ww.id == wid)) →
      wdGet wallDirs w.id = some d →
      params.wallHeight - params.studWidth * 2 > params.studWidth + EPS →
      cornerStudAt junc.point w d params ∈ junctionMembersFor junc walls wallDirs params) ∧
    (∀ (p : Point2D) (w : Wall) (d : WallDir) (params : FrameParams),
      (cornerStudAt p w d params).start.x = p.x + d.normX * effectiveDepth params w ∧
      (cornerStudAt p w d params).start.z = p.z + d.normZ * effectiveDepth params w ∧
      (cornerStudAt p w d params).end_.x = (cornerStudAt p w d params).start.x ∧
      (cornerStudAt p w d params).end_.z = (cornerStudAt p w d params).start.z ∧
      (cornerStudAt p w d params).depth = effectiveDepth params w ∧
      (cornerStudAt p w d params).wallId = w.id) ∧
    (detectJunctions sbWalls).length = 4 ∧
    (∀ j ∈ detectJunctions sbWalls, j.type = JunctionType.corner) ∧
    (sbFrame.members.filter (fun m => m.type == MemberType.corner_stud)).length = 8 ∧
    (sbFrame.members.filter (fun m => m.type == MemberType.partition_backer)).length = 0 := by
  refine ⟨?_, ?_, ?_, ?_, by decide, by decide, by decide, by decide⟩
  · intro walls j hj
    unfold detectJunctions at hj
    rcases List.mem_filterMap.mp hj with ⟨kv, _, heq⟩
    split at heq
    case _ hc =>
      rw [Option.some.injEq] at heq
      subst heq
      refine ⟨hc, ?_⟩
      by_cases hT : entryIsTee walls kv.2
      · simp only [hT, if_true]
        simp only [true_iff]
        exact (entryIsTee_iff walls kv.2).mp hT
      · simp only [hT, if_false]
        constructor
        · intro hcontra
          exact absurd hcontra (by simp)
        · intro hex
          exact absurd ((entryIsTee_iff walls kv.2).mpr hex) (by simp [hT])
    · exact absurd heq (by simp)
  · intro junc walls wallDirs params hcorner m hm
    unfold junctionMembersFor at hm
    rw [if_pos hcorner] at hm
    rcases (mem_foldrAppend _ _ m).mp hm with ⟨w, _, hm1⟩
    split at hm1
    · exact absurd hm1 (List.not_mem_nil m)
    case _ d hget =>
      split at hm1
      · rw [List.mem_singleton] at hm1
        subst hm1
        refine ⟨rfl, rfl, ?_⟩
        simp [cornerStudAt, qsub_eq, qmul_eq]
      · exact absurd hm1 (List.not_mem_nil m)
  · intro junc walls wallDirs params w d hcorner hw hget hheight
    have hheight2 : qsub params.wallHeight (qmul params.studWidth 2) >
        qadd params.studWidth EPS := by
      rw [qsub_eq, qmul_eq, qadd_eq]
      exact hheight
    unfold junctionMembersFor
    rw [if_pos hcorner]
    refine (mem_foldrAppend _ _ _).mpr ⟨w, hw, ?_⟩
    rw [hget]
    dsimp only
    rw [if_pos hheight2]
    exact List.mem_singleton.mpr rfl
  · intro p w d params
    refine ⟨?_, ?_, ?_, ?_, ?_, ?_⟩ <;> simp [cornerStudAt, qadd_eq, qmul_eq]

/-- Witness for C4 at the Scenario B corner (0,0): the corner stud for wall
"w1" is a member of that junction's framing. -/
theorem c4_junctions_and_corners_witness :
    cornerStudAt { x := 0, z := 0 } (mkExtWall "w1" 0 0 10 0)
        (computeWallDir (mkExtWall "w1" 0 0 10 0) 10) scParams ∈
      junctionMembersFor
        { point := { x := 0, z := 0 }, wallIds := ["w1", "w4"],
          type := JunctionType.corner }
        sbWalls (wallDirsOf sbWalls sbLen) scParams := by
  refine c4_junctions_and_corners.2.2.1
    { point := { x := 0, z := 0 }, wallIds := ["w1", "w4"], type := JunctionType.corner }
    sbWalls (wallDirsOf sbWalls sbLen) scParams (mkExtWall "w1" 0 0 10 0)
    (computeWallDir (mkExtWall "w1" 0 0 10 0) 10) rfl (by decide) (by decide) ?_
  rw [show scParams.wallHeight = mkRat 12 5 from rfl,
    show scParams.studWidth = mkRat 9 200 from rfl,
    show (mkRat 12 5 : ℚ) = 12/5 from by rw [mkRat_cast_eq_div]; norm_num,
    show (mkRat 9 200 : ℚ) = 9/200 from by rw [mkRat_cast_eq_div]; norm_num,
    show EPS = 1/200 from EPS_eq]
  norm_num

/-!
## C9: translation behaviour of junction detection

The segment predicates are invariant under every translation; the
millimetre quantisation key commutes only with whole-millimetre offsets,
which is what the amended statement requires.
-/

theorem isPointOnSegment_shift (dx dz : ℚ) (pt a b : Point2D) :
    isPointOnSegment (shiftPoint dx dz pt) (shiftPoint dx dz a) (shiftPoint dx dz b)
      = isPointOnSegment pt a b := by
  unfold isPointOnSegment shiftPoint
  simp only [qadd_eq, qsub_eq, qmul_eq, qdiv_eq]
  rw [show b.x + dx - (a.x + dx) = b.x - a.x from by ring,
    show b.z + dz - (a.z + dz) = b.z - a.z from by ring,
    show pt.x + dx - (a.x + dx) = pt.x - a.x from by ring,
    show pt.z + dz - (a.z + dz) = pt.z - a.z from by ring]
  simp only [show ∀ t : ℚ, pt.x + dx - (a.x + dx + t * (b.x - a.x))
      = pt.x - (a.x + t * (b.x - a.x)) from fun t => by ring,
    show ∀ t : ℚ, pt.z + dz - (a.z + dz + t * (b.z - a.z))
      = pt.z - (a.z + t * (b.z - a.z)) from fun t => by ring]

theorem isPointOnSegmentInterior_shift (dx dz : ℚ) (pt a b : Point2D) :
    isPointOnSegmentInterior (shiftPoint dx dz pt) (shiftPoint dx dz a) (shiftPoint dx dz b)
      = isPointOnSegmentInterior pt a b := by
  unfold isPointOnSegmentInterior shiftPoint
  simp only [qadd_eq, qsub_eq, qmul_eq, qdiv_eq]
  rw [show b.x + dx - (a.x + dx) = b.x - a.x from by ring,
    show b.z + dz - (a.z + dz) = b.z - a.z from by ring,
    show pt.x + dx - (a.x + dx) = pt.x - a.x from by ring,
    show pt.z + dz - (a.z + dz) = pt.z - a.z from by ring]
  simp only [show ∀ t : ℚ, pt.x + dx - (a.x + dx + t * (b.x - a.x))
      = pt.x - (a.x + t * (b.x - a.x)) from fun t => by ring,
    show ∀ t : ℚ, pt.z + dz - (a.z + dz + t * (b.z - a.z))
      = pt.z - (a.z + t * (b.z - a.z)) from fun t => by ring]

theorem jsRound_add_int (q : ℚ) (m : ℤ) : jsRound (q + m) = jsRound q + m := by
  unfold jsRound
  rw [qadd_eq, qadd_eq]
  rw [show q + (m : ℚ) + mkRat 1 2 = q + mkRat 1 2 + (m : ℚ) from by ring]
  exact Int.floor_add_int _ _

theorem quantKey_shift (mx mz : ℤ) (p : Point2D) :
    quantKey (shiftPoint (mkRat mx 1000) (mkRat mz 1000) p)
      = ((quantKey p).1 + mx, (quantKey p).2 + mz) := by
  unfold quantKey shiftPoint
  simp only [qmul_eq, qadd_eq]
  rw [show (p.x + mkRat mx 1000) * 1000 = p.x * 1000 + (mx : ℚ) from by
      rw [mkRat_cast_eq_div]; push_cast; ring,
    show (p.z + mkRat mz 1000) * 1000 = p.z * 1000 + (mz : ℚ) from by
      rw [mkRat_cast_eq_div]; push_cast; ring]
  exact Prod.ext (jsRound_add_int _ _) (jsRound_add_int _ _)

theorem pmAddId_point (e : PMEntry) (wid : String) : (pmAddId e wid).point = e.point := by
  unfold pmAddId
  split <;> rfl

theorem foldl_pmAddId_point (ids : List String) (e : PMEntry) :
    (ids.foldl pmAddId e).point = e.point := by
  induction ids generalizing e with
  | nil => rfl
  | cons i rest ih => rw [List.foldl_cons, ih, pmAddId_point]

theorem foldl_pmAddId_eta (ids : List String) (p q : Point2D) (l : List String) :
    ids.foldl pmAddId { point := p, wallIds := l }
      = { point := p, wallIds := (ids.foldl pmAddId { point := q, wallIds := l }).wallIds } := by
  induction ids generalizing l with
  | nil => rfl
  | cons i rest ih =>
    rw [List.foldl_cons, List.foldl_cons]
    unfold pmAddId
    dsimp only
    by_cases h : l.contains i = true
    · rw [if_pos h, if_pos h]
      exact ih l
    · rw [if_neg h, if_neg h]
      exact ih (l ++ [i])

theorem pmUpdate_shift (mx mz : ℤ) (dx dz : ℚ) (m : PointMap) (k : ℤ × ℤ) (p : Point2D)
    (ids : List String) :
    pmUpdate (shiftPM mx mz dx dz m) (k.1 + mx, k.2 + mz) (shiftPoint dx dz p) ids
      = shiftPM mx mz dx dz (pmUpdate m k p ids) := by
  induction m with
  | nil =>
    unfold pmUpdate shiftPM
    simp only [List.map_nil, List.map_cons]
    rw [foldl_pmAddId_eta ids (shiftPoint dx dz p) p []]
    rw [foldl_pmAddId_point]
  | cons kv rest ih =>
    obtain ⟨k', e⟩ := kv
    unfold pmUpdate
    simp only [shiftPM, List.map_cons]
    by_cases hk : k' = k
    · subst hk
      rw [if_pos rfl, if_pos rfl]
      simp only [shiftPM, List.map_cons]
      rw [foldl_pmAddId_eta ids (shiftPoint dx dz e.point) e.point e.wallIds]
      rw [foldl_pmAddId_point]
    · have hk2 : ¬ (((k'.1 + mx, k'.2 + mz) : ℤ × ℤ) = (k.1 + mx, k.2 + mz)) := by
        intro hcon
        rw [Prod.mk.injEq] at hcon
        exact hk (Prod.ext (by omega) (by omega))
      rw [if_neg hk2, if_neg hk]
      simp only [shiftPM, List.map_cons] at ih ⊢
      rw [ih]

theorem foldl_hom_shift {A B : Type} (sh : B → B) (F G : B → A → B)
    (l : List A) (m : B) (h : ∀ acc o, F (sh acc) o = sh (G acc o)) :
    l.foldl F (sh m) = sh (l.foldl G m) := by
  induction l generalizing m with
  | nil => rfl
  | cons o rest ih =>
    rw [List.foldl_cons, List.foldl_cons, h m o]
    exact ih (G m o)

theorem innerStep_shift (mx mz : ℤ) (wid oid : String) (os oe : Point2D)
    (acc : PointMap) (p : Point2D) :
    (if isPointOnSegment (shiftPoint (mkRat mx 1000) (mkRat mz 1000) p)
          (shiftPoint (mkRat mx 1000) (mkRat mz 1000) os)
          (shiftPoint (mkRat mx 1000) (mkRat mz 1000) oe) = true then
        pmUpdate (shiftPM mx mz (mkRat mx 1000) (mkRat mz 1000) acc)
          (quantKey (shiftPoint (mkRat mx 1000) (mkRat mz 1000) p))
          (shiftPoint (mkRat mx 1000) (mkRat mz 1000) p) [wid, oid]
      else shiftPM mx mz (mkRat mx 1000) (mkRat mz 1000) acc)
      = shiftPM mx mz (mkRat mx 1000) (mkRat mz 1000)
          (if isPointOnSegment p os oe = true then
            pmUpdate acc (quantKey p) p [wid, oid] else acc) := by
  rw [isPointOnSegment_shift]
  by_cases h : isPointOnSegment p os oe = true
  · rw [if_pos h, if_pos h, quantKey_shift, pmUpdate_shift]
  · rw [if_neg h, if_neg h]

theorem detectStep_shift (mx mz : ℤ) (walls : List Wall) (m : PointMap) (wall : Wall) :
    detectStep (walls.map (shiftWall (mkRat mx 1000) (mkRat mz 1000)))
        (shiftPM mx mz (mkRat mx 1000) (mkRat mz 1000) m)
        (shiftWall (mkRat mx 1000) (mkRat mz 1000) wall)
      = shiftPM mx mz (mkRat mx 1000) (mkRat mz 1000) (detectStep walls m wall) := by
  unfold detectStep
  dsimp only
  rw [show (shiftWall (mkRat mx 1000) (mkRat mz 1000) wall).start
      = shiftPoint (mkRat mx 1000) (mkRat mz 1000) wall.start from rfl,
    show (shiftWall (mkRat mx 1000) (mkRat mz 1000) wall).end_
      = shiftPoint (mkRat mx 1000) (mkRat mz 1000) wall.end_ from rfl,
    show (shiftWall (mkRat mx 1000) (mkRat mz 1000) wall).id = wall.id from rfl]
  rw [quantKey_shift, quantKey_shift, pmUpdate_shift, pmUpdate_shift]
  rw [List.foldl_map]
  apply foldl_hom_shift
  intro acc other
  dsimp only
  rw [show (shiftWall (mkRat mx 1000) (mkRat mz 1000) other).id = other.id from rfl,
    show (shiftWall (mkRat mx 1000) (mkRat mz 1000) other).start
      = shiftPoint (mkRat mx 1000) (mkRat mz 1000) other.start from rfl,
    show (shiftWall (mkRat mx 1000) (mkRat mz 1000) other).end_
      = shiftPoint (mkRat mx 1000) (mkRat mz 1000) other.end_ from rfl]
  by_cases ho : other.id = wall.id
  · rw [if_pos ho, if_pos ho]
  · rw [if_neg ho, if_neg ho]
    rw [List.foldl_cons, List.foldl_cons, List.foldl_nil,
      List.foldl_cons, List.foldl_cons, List.foldl_nil]
    rw [innerStep_shift, innerStep_shift]

theorem buildPointMap_shift (mx mz : ℤ) (walls : List Wall) :
    buildPointMap (walls.map (shiftWall (mkRat mx 1000) (mkRat mz 1000)))
      = shiftPM mx mz (mkRat mx 1000) (mkRat mz 1000) (buildPointMap walls) := by
  unfold buildPointMap
  rw [List.foldl_map]
  conv_lhs =>
    rw [show ([] : PointMap)
      = shiftPM mx mz (mkRat mx 1000) (mkRat mz 1000) [] from rfl]
  exact foldl_hom_shift _ _ _ walls []
    (fun acc o => detectStep_shift mx mz walls acc o)

theorem find?_map_shift (dx dz : ℚ) (walls : List Wall) (wid : String) :
    (walls.map (shiftWall dx dz)).find? (fun ww => ww.id == wid)
      = (walls.find? (fun ww => ww.id == wid)).map (shiftWall dx dz) := by
  induction walls with
  | nil => rfl
  | cons w rest ih =>
    by_cases h : w.id = wid
    · rw [List.map_cons, List.find?_cons_of_pos _ (by simp [shiftWall, h]),
        List.find?_cons_of_pos _ (by simp [h]), Option.map_some']
    · rw [List.map_cons, List.find?_cons_of_neg _ (by simp [shiftWall, h]),
        List.find?_cons_of_neg _ (by simp [h]), ih]

theorem entryIsTee_shift (dx dz : ℚ) (walls : List Wall) (p : Point2D)
    (ids : List String) :
    entryIsTee (walls.map (shiftWall dx dz))
        { point := shiftPoint dx dz p, wallIds := ids }
      = entryIsTee walls { point := p, wallIds := ids } := by
  unfold entryIsTee
  congr 1
  funext wid
  dsimp only
  rw [find?_map_shift]
  cases hfind : walls.find? (fun ww => ww.id == wid) with
  | none => rfl
  | some w =>
    rw [Option.map_some']
    dsimp only
    rw [show (shiftWall dx dz w).start = shiftPoint dx dz w.start from rfl,
      show (shiftWall dx dz w).end_ = shiftPoint dx dz w.end_ from rfl]
    exact isPointOnSegmentInterior_shift dx dz p w.start w.end_

theorem detectJunctions_shift (mx mz : ℤ) (walls : List Wall) :
    detectJunctions (walls.map (shiftWall (mkRat mx 1000) (mkRat mz 1000)))
      = (detectJunctions walls).map (shiftJunction (mkRat mx 1000) (mkRat mz 1000)) := by
  unfold detectJunctions
  rw [buildPointMap_shift]
  unfold shiftPM
  rw [List.filterMap_map, List.map_filterMap]
  congr 1
  funext kv
  dsimp only [Function.comp]
  by_cases hlen : kv.2.wallIds.length ≥ 2
  · rw [if_pos hlen, if_pos hlen, Option.map_some']
    rw [entryIsTee_shift]
    rfl
  · rw [if_neg hlen, if_neg hlen]
    rfl


/-- Claim **C9** (amended): junction detection commutes with translation by any
whole-millimetre offset (mx/1000, mz/1000): the shifted wall set yields
exactly the shifted junctions, hence the same count and the same
corner/tee classification.  (For arbitrary offsets the literal claim
fails: see the counterexample.) -/
theorem c9_translation_amended (mx mz : ℤ) (walls : List Wall) :
    detectJunctions (walls.map (shiftWall (mkRat mx 1000) (mkRat mz 1000)))
        = (detectJunctions walls).map (shiftJunction (mkRat mx 1000) (mkRat mz 1000)) ∧
    (detectJunctions (walls.map (shiftWall (mkRat mx 1000) (mkRat mz 1000)))).length
        = (detectJunctions walls).length ∧
    (detectJunctions (walls.map (shiftWall (mkRat mx 1000) (mkRat mz 1000)))).map Junction.type
        = (detectJunctions walls).map Junction.type := by
  refine ⟨detectJunctions_shift mx mz walls, ?_, ?_⟩
  · rw [detectJunctions_shift mx mz walls, List.length_map]
  · rw [detectJunctions_shift mx mz walls, List.map_map]
    congr 1

/-- Counterexample to the literal C9: shifting two nearly-touching collinear
walls by 0.1 mm moves their facing endpoints across a millimetre rounding
boundary, changing the junction count from 0 to 1. -/
theorem c9_cex_tenth_mm_shift :
    (detectJunctions c9Walls).length = 0 ∧
    (detectJunctions (c9Walls.map (shiftWall (mkRat 1 10000) 0))).length = 1 :=
  ⟨by decide, by decide⟩

end Timber
